import Mathlib

/-!
Verification of the translation engine of the jenkins-job-wrecker repository
(file jenkins_job_wrecker/job_handlers.py, Python 2).

The Python source is shallowly embedded: an XML element (as produced by
xml.etree.ElementTree) is the inductive type Elem; YAML-bound Python values
are the inductive type Value; Python exceptions are the type PyErr and
fallible code returns Except PyErr.  Python loops become structural
recursions over child lists.  The few genuinely recursive handlers
(handle_scm, handle_builder, dict_merge) are embedded as a non-recursive
step functional iterated over an explicit fuel counter, so that all
definitions reduce in the kernel; the fuel is an embedding artifact
(the Python functions recurse without it), and theorems are stated so that
fuel sufficiency is either irrelevant or discharged at concrete inputs.
-/

/-- An ElementTree element: tag, attributes, text, ordered children and the
tail text that follows the element (ET.tostring serializes the tail too). -/
inductive Elem where
  | mk (tag : String) (attrib : List (String × String)) (text : Option String)
       (children : List Elem) (tail : Option String)

def Elem.tag : Elem → String
  | .mk t _ _ _ _ => t

def Elem.attrib : Elem → List (String × String)
  | .mk _ a _ _ _ => a

def Elem.text : Elem → Option String
  | .mk _ _ tx _ _ => tx

def Elem.children : Elem → List Elem
  | .mk _ _ _ ch _ => ch

def Elem.tail : Elem → Option String
  | .mk _ _ _ _ tl => tl

/-- Attribute lookup, `elem.attrib.get(k)` / `k in elem.attrib`. -/
def findAttr : List (String × String) → String → Option String
  | [], _ => Option.none
  | p :: ps, k => if p.1 = k then some p.2 else findAttr ps k

/-- Shorthand for an element with no tail, as most test inputs have. -/
def el (tag : String) (attrib : List (String × String)) (text : Option String)
    (children : List Elem) : Elem :=
  .mk tag attrib text children Option.none

/-- Python truthiness of an optional string: None and the empty string are
falsy (`if child.text:` in the source). -/
def pyTruthy : Option String → Bool
  | Option.none => false
  | some s => !(s == "")

/-- First direct child with the given tag (one segment of `Element.find`). -/
def findSeg : List Elem → String → Option Elem
  | [], _ => Option.none
  | c :: cs, t => if c.tag = t then some c else findSeg cs t

/-- `Element.find` restricted to the slash-separated child paths the source
uses (e.g. "worstResult/name"). -/
def findPathL : Elem → List String → Option Elem
  | e, [] => some e
  | e, seg :: rest =>
    match findSeg e.children seg with
    | Option.none => Option.none
    | some c => findPathL c rest

def findE (e : Elem) (path : String) : Option Elem :=
  findPathL e (path.splitOn "/")

/-- `Element.findtext(path)`: None when no element matches, and the empty
string when the matched element has no text (`elem.text or ""`). -/
def findtext (e : Elem) (path : String) : Option String :=
  match findE e path with
  | Option.none => Option.none
  | some c => some (c.text.getD "")

/-- `Element.findall("a/b")`: every b child of every a child, in document
order (the only findall shape used by the source). -/
def findall2 (e : Elem) (seg1 seg2 : String) : List Elem :=
  ((e.children.filter (fun c => c.tag = seg1)).map
    (fun c => c.children.filter (fun d => d.tag = seg2))).flatten

/-- Whitespace in the sense of Python str.strip(). -/
def isPyWs (c : Char) : Bool :=
  (c == ' ') || (c == '\t') || (c == '\n') || (c == '\r') ||
  (c == '\x0b') || (c == '\x0c')

def stripL (l : List Char) : List Char :=
  ((l.dropWhile isPyWs).reverse.dropWhile isPyWs).reverse

/-- Python str.strip(). -/
def pyStrip (s : String) : String :=
  String.mk (stripL s.data)

/-- ElementTree _escape_cdata (text content escaping). -/
def escCdataChar (c : Char) : List Char :=
  if c = '&' then "&amp;".data
  else if c = '<' then "&lt;".data
  else if c = '>' then "&gt;".data
  else [c]

def escape_cdata (s : String) : String :=
  String.mk (s.data.map escCdataChar).flatten

/-- ElementTree _escape_attrib (attribute value escaping). -/
def escAttribChar (c : Char) : List Char :=
  if c = '&' then "&amp;".data
  else if c = '<' then "&lt;".data
  else if c = '>' then "&gt;".data
  else if c = '"' then "&quot;".data
  else if c = '\n' then "&#10;".data
  else [c]

def escape_attrib (s : String) : String :=
  String.mk (s.data.map escAttribChar).flatten

/-- Lexicographic comparison of strings by code point, the Python 2
byte-string order for the ASCII tags/attributes at hand. -/
def strLtB : List Char → List Char → Bool
  | [], [] => false
  | [], _ :: _ => true
  | _ :: _, [] => false
  | a :: as0, b :: bs0 =>
    if a.toNat < b.toNat then true
    else if b.toNat < a.toNat then false
    else strLtB as0 bs0

/-- Insertion sort of the attribute list by key, as ET (Python 2.7)
serializes attributes with `sorted(items)`; keys are unique in an
attribute dict so comparing keys suffices. -/
def insAttr (p : String × String) : List (String × String) → List (String × String)
  | [] => [p]
  | q :: qs => if strLtB q.1.data p.1.data then q :: insAttr p qs else p :: q :: qs

def sortAttrs : List (String × String) → List (String × String)
  | [] => []
  | p :: ps => insAttr p (sortAttrs ps)

def attrsString (l : List (String × String)) : String :=
  String.join ((sortAttrs l).map
    (fun p => " " ++ p.1 ++ "=\"" ++ escape_attrib p.2 ++ "\""))

mutual
/-- ET.tostring (Python 2.7 _serialize_xml, default encoding): sorted
attributes, `<tag .../>` self-closing when there is no truthy text and no
children, and the tail text appended after the element. -/
def tostring : Elem → String
  | .mk t a tx ch tl =>
    "<" ++ t ++ attrsString a ++
    (if pyTruthy tx || !ch.isEmpty then
      ">" ++ escape_cdata (tx.getD "") ++ tostringList ch ++ "</" ++ t ++ ">"
    else " />") ++
    (if pyTruthy tl then escape_cdata (tl.getD "") else "")

def tostringList : List Elem → String
  | [] => ""
  | e :: es => tostring e ++ tostringList es
end

/-- A Python value as it ends up in the YAML output model: str, bool, int,
None, list, or (ordered) dict. -/
inductive Value where
  | str : String → Value
  | bool : Bool → Value
  | int : Int → Value
  | null : Value
  | list : List Value → Value
  | dict : List (String × Value) → Value

/-- A raw Python element text becoming a value: None stays None
(handle_description and friends do not coerce). -/
def vOfText : Option String → Value
  | Option.none => Value.null
  | some s => Value.str s

/-- The Python exceptions the embedded code can raise.  fuel is an
embedding artifact marking exhaustion of the recursion counter. -/
inductive PyErr where
  | notImplemented : String → PyErr
  | keyError : String → PyErr
  | typeError : String → PyErr
  | valueError : String → PyErr
  | attributeError : String → PyErr
  | nameError : String → PyErr
  | indexError : String → PyErr
  | fuel : PyErr
deriving DecidableEq

/-- `elem.attrib[k]`: KeyError when absent. -/
def getAttr (e : Elem) (k : String) : Except PyErr String :=
  match findAttr e.attrib k with
  | some v => Except.ok v
  | Option.none => Except.error (PyErr.keyError k)

/-- OrderedDict get. -/
def odGet : List (String × Value) → String → Option Value
  | [], _ => Option.none
  | p :: ps, k => if p.1 = k then some p.2 else odGet ps k

def odHas (od : List (String × Value)) (k : String) : Bool :=
  (odGet od k).isSome

/-- OrderedDict assignment od[k] = v: an existing key keeps its position,
a new key is appended. -/
def odSet : List (String × Value) → String → Value → List (String × Value)
  | [], k, v => [(k, v)]
  | p :: ps, k, v => if p.1 = k then (k, v) :: ps else p :: odSet ps k v

def parseDigits : List Char → Option Nat
  | [] => Option.none
  | l => l.foldl (fun acc c =>
      match acc with
      | Option.none => Option.none
      | some n => if c.isDigit then some (n * 10 + (c.toNat - 48)) else Option.none)
      (some 0)

/-- Python int(s) on a string: surrounding whitespace allowed, optional
sign, otherwise ValueError. -/
def pyIntStr (s : String) : Except PyErr Int :=
  match stripL s.data with
  | '-' :: ds =>
    (match parseDigits ds with
     | some n => Except.ok (-(n : Int))
     | Option.none => Except.error (PyErr.valueError s))
  | '+' :: ds =>
    (match parseDigits ds with
     | some n => Except.ok (n : Int)
     | Option.none => Except.error (PyErr.valueError s))
  | ds =>
    (match parseDigits ds with
     | some n => Except.ok (n : Int)
     | Option.none => Except.error (PyErr.valueError s))

/-- Python int(x) where x may be None (TypeError then). -/
def pyIntText : Option String → Except PyErr Int
  | Option.none => Except.error (PyErr.typeError "int() argument cannot be None")
  | some s => pyIntStr s

/-- create_rawxml (job_handlers.py lines 1229-1232): the Fallback Codec.
Wraps `ET.tostring(node).strip() + "\n"` as {raw: {xml: ...}}. -/
def create_rawxml (node : Elem) : Value :=
  Value.dict [("raw", Value.dict [("xml", Value.str (pyStrip (tostring node) ++ "\n"))])]

/-- insert_rawxml (lines 1225-1226): append the Fallback Value. -/
def insert_rawxml (node : Elem) (output : List Value) : List Value :=
  output ++ [create_rawxml node]


/-- Loop body of dict_merge (job_handlers.py lines 14-18): for k, v in
b.iteritems(): if k in result and isinstance(result[k], dict) merge
recursively, else result[k] = deepcopy(v) (deepcopy is the identity on
pure values).  rec_ stands for the recursive call to dict_merge. -/
def dict_mergeLoop (rec_ : Value → Value → Except PyErr Value) :
    List (String × Value) → List (String × Value) → Except PyErr (List (String × Value))
  | res, [] => Except.ok res
  | res, (k, v) :: rest =>
    match odGet res k with
    | some (Value.dict dk) =>
      (match rec_ (Value.dict dk) v with
       | Except.ok m => dict_mergeLoop rec_ (odSet res k m) rest
       | Except.error e => Except.error e)
    | _ => dict_mergeLoop rec_ (odSet res k v) rest

/-- Body of dict_merge (lines 10-19): if b is not a dict return b,
otherwise start from a copy of a (which must itself be a dict, else the
OrderedDict construction raises TypeError) and fold b in. -/
def dict_mergeStep (rec_ : Value → Value → Except PyErr Value) (a b : Value) :
    Except PyErr Value :=
  match b with
  | Value.dict bs =>
    (match a with
     | Value.dict az =>
       (match dict_mergeLoop rec_ az bs with
        | Except.ok r => Except.ok (Value.dict r)
        | Except.error e => Except.error e)
     | _ => Except.error (PyErr.typeError "cannot construct OrderedDict from a non-dict"))
  | _ => Except.ok b

/-- dict_merge (job_handlers.py lines 10-19), iterated over fuel. -/
def dict_merge : Nat → Value → Value → Except PyErr Value
  | 0, _, _ => Except.error PyErr.fuel
  | Nat.succ f, a, b => dict_mergeStep (dict_merge f) a b

/-! Heap embedding of dict_merge for the mutation claim (C6).  Python
dicts are heap objects; to state that dict_merge mutates neither input we
re-embed the same source lines with an explicit heap: HVal is a Python
value that is either immutable (int, str) or a reference to a heap-allocated
ordered dict.  dict_mergeH allocates the result (`result =
OrderedDict(deepcopy(a))`) and then performs the per-key assignments
`result[k] = ...` as in the source, as stores into that allocation. -/

inductive HVal where
  | hint : Int → HVal
  | hstr : String → HVal
  | href : Nat → HVal
deriving DecidableEq

abbrev HDict := List (String × HVal)

structure Heap where
  mem : List (Nat × HDict)
  nxt : Nat
deriving DecidableEq

def memGet : List (Nat × HDict) → Nat → Option HDict
  | [], _ => Option.none
  | p :: ps, a => if p.1 = a then some p.2 else memGet ps a

/-- Store into an existing heap object (in-place mutation of a dict). -/
def memSet : List (Nat × HDict) → Nat → HDict → List (Nat × HDict)
  | [], _, _ => []
  | p :: ps, a, d => if p.1 = a then (a, d) :: ps else p :: memSet ps a d

def halloc (h : Heap) (d : HDict) : Heap × Nat :=
  (⟨(h.nxt, d) :: h.mem, h.nxt + 1⟩, h.nxt)

def hOdGet : HDict → String → Option HVal
  | [], _ => Option.none
  | p :: ps, k => if p.1 = k then some p.2 else hOdGet ps k

def hOdSet : HDict → String → HVal → HDict
  | [], k, v => [(k, v)]
  | p :: ps, k, v => if p.1 = k then (k, v) :: ps else p :: hOdSet ps k v

/-- isinstance(x, dict) in the heap model. -/
def isHDict (h : Heap) (v : HVal) : Bool :=
  match v with
  | HVal.href a => (memGet h.mem a).isSome
  | _ => false

/-- copy.deepcopy on one value: immutable values are returned as they are,
a dict reference is copied entry by entry into a fresh allocation.
(The stdlib memo for shared/cyclic structure is not modelled; the inputs
at hand are trees.)  dcrec stands for the recursive call. -/
def deepcopyStep (dcrec : Heap → HVal → Option (Heap × HVal))
    (h : Heap) (v : HVal) : Option (Heap × HVal) :=
  match v with
  | HVal.href a =>
    (match memGet h.mem a with
     | some d =>
       (match deepcopyEntries dcrec h d with
        | some (h1, d') =>
          let p := halloc h1 d'
          some (p.1, HVal.href p.2)
        | Option.none => Option.none)
     | Option.none => Option.none)
  | _ => some (h, v)
where
  deepcopyEntries (dcrec : Heap → HVal → Option (Heap × HVal)) :
      Heap → HDict → Option (Heap × HDict)
    | h, [] => some (h, [])
    | h, (k, v) :: rest =>
      match dcrec h v with
      | some (h1, v') =>
        (match deepcopyEntries dcrec h1 rest with
         | some (h2, rest') => some (h2, (k, v') :: rest')
         | Option.none => Option.none)
      | Option.none => Option.none

def deepcopyH : Nat → Heap → HVal → Option (Heap × HVal)
  | 0, _, _ => Option.none
  | Nat.succ f, h, v => deepcopyStep (deepcopyH f) h v

/-- Loop body of dict_merge in the heap model: iterate b's entries, and for
each either merge recursively (when result[k] is a dict) or store a deep
copy of v, mutating only the freshly allocated result object r. -/
def dict_mergeItemsH (rec_ : Heap → HVal → HVal → Option (Heap × HVal))
    (dc : Heap → HVal → Option (Heap × HVal)) :
    Heap → Nat → HDict → Option Heap
  | h, _, [] => some h
  | h, r, (k, v) :: rest =>
    match memGet h.mem r with
    | Option.none => Option.none
    | some cur =>
      match hOdGet cur k with
      | some rv =>
        if isHDict h rv then
          match rec_ h rv v with
          | some (h1, m) =>
            (match memGet h1.mem r with
             | some cur1 =>
               dict_mergeItemsH rec_ dc ⟨memSet h1.mem r (hOdSet cur1 k m), h1.nxt⟩ r rest
             | Option.none => Option.none)
          | Option.none => Option.none
        else
          match dc h v with
          | some (h1, v') =>
            (match memGet h1.mem r with
             | some cur1 =>
               dict_mergeItemsH rec_ dc ⟨memSet h1.mem r (hOdSet cur1 k v'), h1.nxt⟩ r rest
             | Option.none => Option.none)
          | Option.none => Option.none
      | Option.none =>
        match dc h v with
        | some (h1, v') =>
          (match memGet h1.mem r with
           | some cur1 =>
             dict_mergeItemsH rec_ dc ⟨memSet h1.mem r (hOdSet cur1 k v'), h1.nxt⟩ r rest
           | Option.none => Option.none)
        | Option.none => Option.none

/-- Body of dict_merge in the heap model (same source lines 10-19 as
dict_merge; None plays the role of a stuck run, never reached with enough
fuel on well-formed heaps). -/
def dict_mergeHStep (rec_ : Heap → HVal → HVal → Option (Heap × HVal))
    (dc : Heap → HVal → Option (Heap × HVal))
    (h : Heap) (a b : HVal) : Option (Heap × HVal) :=
  match b with
  | HVal.href rb =>
    (match memGet h.mem rb with
     | some bd =>
       (match a with
        | HVal.href ra =>
          (match memGet h.mem ra with
           | some ad =>
             (match deepcopyStep.deepcopyEntries dc h ad with
              | some (h1, ad') =>
                let p := halloc h1 ad'
                (match dict_mergeItemsH rec_ dc p.1 p.2 bd with
                 | some h3 => some (h3, HVal.href p.2)
                 | Option.none => Option.none)
              | Option.none => Option.none)
           | Option.none => Option.none)
        | _ => Option.none)
     | Option.none => some (h, b))
  | _ => some (h, b)

def dict_mergeH : Nat → Heap → HVal → HVal → Option (Heap × HVal)
  | 0, _, _, _ => Option.none
  | Nat.succ f, h, a, b => dict_mergeHStep (dict_mergeH f) (deepcopyH f) h a b

/-- Well-formed heap: every allocated address is below the allocation
counter. -/
def HeapWF (h : Heap) : Prop :=
  ∀ p ∈ h.mem, p.1 < h.nxt

instance : DecidablePred HeapWF := fun h =>
  inferInstanceAs (Decidable (∀ p ∈ h.mem, p.1 < h.nxt))

/-- handle_description (job_handlers.py lines 31-32): the raw text is the
value (None included). -/
def handle_description (top : Elem) : List (String × Value) :=
  [("description", vOfText top.text)]

/-- handle_disabled (lines 437-438): always one entry, the boolean
top.text == "true". -/
def handle_disabled (top : Elem) : List (String × Value) :=
  [("disabled", Value.bool (top.text == some "true"))]

/-- Text coercion of handle_parameters_property (lines 186-197): None
becomes the empty string, "true"/"false" become booleans, everything else
is the literal text. -/
def coerceSettingText : Option String → Value
  | Option.none => Value.str ""
  | some s =>
    if s = "true" then Value.bool true
    else if s = "false" then Value.bool false
    else Value.str s

def paramSettingsLoop : List Elem → List (String × Value) → List (String × Value)
  | [], settings => settings
  | defsetting :: rest, settings =>
    let key := if defsetting.tag = "defaultValue" then "default" else defsetting.tag
    paramSettingsLoop rest (odSet settings key (coerceSettingText defsetting.text))

def paramDefLoop : List Elem → List Value → List Value
  | [], parameters => parameters
  | parameterdef :: rest, parameters =>
    if parameterdef.tag = "hudson.model.StringParameterDefinition" then
      paramDefLoop rest (parameters ++
        [Value.dict [("string", Value.dict (paramSettingsLoop parameterdef.children []))]])
    else if parameterdef.tag = "hudson.model.BooleanParameterDefinition" then
      paramDefLoop rest (parameters ++
        [Value.dict [("bool", Value.dict (paramSettingsLoop parameterdef.children []))]])
    else
      paramDefLoop rest (insert_rawxml parameterdef parameters)

/-- handle_parameters_property (lines 163-200). -/
def handle_parameters_property (top : Elem) : Except PyErr (List Value) :=
  paramDefsLoop top.children []
where
  paramDefsLoop : List Elem → List Value → Except PyErr (List Value)
    | [], parameters => Except.ok parameters
    | parameterdefs :: rest, parameters =>
      if parameterdefs.tag ≠ "parameterDefinitions" then
        Except.error (PyErr.notImplemented ("cannot handle XML " ++ parameterdefs.tag))
      else
        paramDefsLoop rest (paramDefLoop parameterdefs.children parameters)

/-- Python str.split() (split on whitespace runs, no empty fields). -/
def splitWsAux : List Char → List Char → List String
  | [], acc => if acc.isEmpty then [] else [String.mk acc.reverse]
  | c :: cs, acc =>
    if isPyWs c then
      (if acc.isEmpty then splitWsAux cs [] else String.mk acc.reverse :: splitWsAux cs [])
    else splitWsAux cs (c :: acc)

def pySplitWs (s : String) : List String :=
  splitWsAux s.data []

/-- userRemoteConfigs inner loop of handle_scm (lines 236-242). -/
def remoteCfgLoop : List Elem → List (String × Value) → Except PyErr (List (String × Value))
  | [], git => Except.ok git
  | setting :: rest, git =>
    if setting.tag = "url" ∨ setting.tag = "name" ∨ setting.tag = "refspec" then
      remoteCfgLoop rest (odSet git setting.tag (vOfText setting.text))
    else if setting.tag = "credentialsId" then
      remoteCfgLoop rest (odSet git "credentials-id" (vOfText setting.text))
    else
      Except.error (PyErr.notImplemented
        ("cannot handle UserRemoteConfig setting " ++ setting.tag))

/-- browser inner loops of handle_scm (lines 356-374). -/
def gitblitLoop : List Elem → List (String × Value) → Except PyErr (List (String × Value))
  | [], git => Except.ok git
  | item :: rest, git =>
    if item.tag = "url" then gitblitLoop rest (odSet git "browser-url" (vOfText item.text))
    else if item.tag = "projectName" then
      gitblitLoop rest (odSet git "project-name" (vOfText item.text))
    else Except.error (PyErr.notImplemented "cannot handle browser config")

def githubwebLoop : List Elem → List (String × Value) → Except PyErr (List (String × Value))
  | [], git => Except.ok git
  | item :: rest, git =>
    if item.tag = "url" then githubwebLoop rest (odSet git "browser-url" (vOfText item.text))
    else Except.error (PyErr.notImplemented "cannot handle browser config")

/-- extensions inner loop of handle_scm (lines 376-408); threads the git
and clean OrderedDicts. -/
def extsLoop : List Elem → List (String × Value) → List (String × Value) →
    Except PyErr (List (String × Value) × List (String × Value))
  | [], git, clean => Except.ok (git, clean)
  | ext :: rest, git, clean =>
    if ext.tag = "hudson.plugins.git.extensions.impl.RelativeTargetDirectory" then
      extsLoop rest (odSet git "basedir" (vOfText (findtext ext "relativeTargetDir"))) clean
    else if ext.tag = "hudson.plugins.git.extensions.impl.CloneOption" then
      let git1 := if findtext ext "shallow" = some "true" then
        odSet git "shallow-clone" (Value.bool true) else git
      (match findtext ext "reference" with
       | Option.none => Except.error (PyErr.typeError "object of type NoneType has no len()")
       | some rr =>
         extsLoop rest (if rr.isEmpty then git1 else odSet git1 "reference-repo" (Value.str rr))
           clean)
    else if ext.tag = "hudson.plugins.git.extensions.impl.CleanBeforeCheckout" then
      extsLoop rest git (odSet clean "before" (Value.bool true))
    else if ext.tag = "hudson.plugins.git.extensions.impl.CleanCheckout" then
      extsLoop rest git (odSet clean "after" (Value.bool true))
    else if ext.tag = "hudson.plugins.git.extensions.impl.WipeWorkspace" then
      extsLoop rest (odSet git "wipe-workspace" (Value.bool true)) clean
    else if ext.tag = "hudson.plugins.git.extensions.impl.PerBuildTag" then
      extsLoop rest (odSet git "skip-tag" (Value.bool false)) clean
    else if ext.tag = "hudson.plugins.git.extensions.impl.LocalBranch" then
      extsLoop rest (odSet git "local-branch" (vOfText (findtext ext "localBranch"))) clean
    else
      Except.error (PyErr.notImplemented ("cannot handle Git extension " ++ ext.tag))

/-- Main child loop of handle_scm (lines 224-411), building the git
OrderedDict. -/
def gitLoop : List Elem → List (String × Value) → Except PyErr (List (String × Value))
  | [], git => Except.ok git
  | child :: rest, git =>
    if child.tag = "configVersion" then gitLoop rest git
    else if child.tag = "userRemoteConfigs" then
      (match child.children with
       | [c0] =>
         (match remoteCfgLoop c0.children git with
          | Except.ok git' => gitLoop rest git'
          | Except.error e => Except.error e)
       | _ => Except.error (PyErr.notImplemented "userRemoteConfigs not supported with !=1 children"))
    else if child.tag = "gitTool" then
      gitLoop rest (odSet git "git-tool" (vOfText child.text))
    else if child.tag = "excludedUsers" then
      (if pyTruthy child.text then
        gitLoop rest (odSet git "excluded-users"
          (Value.list ((pySplitWs (child.text.getD "")).map Value.str)))
      else gitLoop rest git)
    else if child.tag = "buildChooser" then
      (match getAttr child "class" with
       | Except.error e => Except.error e
       | Except.ok c =>
         if c = "hudson.plugins.git.util.DefaultBuildChooser" then gitLoop rest git
         else Except.error (PyErr.notImplemented (c ++ " build chooser")))
    else if child.tag = "disableSubmodules" then
      (if child.text = some "true" then
        Except.error (PyErr.notImplemented "TODO: disableSubmodules")
      else gitLoop rest git)
    else if child.tag = "recursiveSubmodules" then
      (if child.text = some "true" then
        Except.error (PyErr.notImplemented "TODO: recursiveSubmodules")
      else gitLoop rest git)
    else if child.tag = "authorOrCommitter" then
      (if child.text = some "true" then gitLoop rest (odSet git "use-author" (Value.bool true))
      else gitLoop rest git)
    else if child.tag = "useShallowClone" then
      (if child.text = some "true" then gitLoop rest (odSet git "shallow-clone" (Value.bool true))
      else gitLoop rest git)
    else if child.tag = "ignoreNotifyCommit" then
      (if child.text = some "true" then gitLoop rest (odSet git "ignore-notify" (Value.bool true))
      else gitLoop rest git)
    else if child.tag = "wipeOutWorkspace" then
      gitLoop rest (odSet git "wipe-workspace" (Value.bool (child.text == some "true")))
    else if child.tag = "skipTag" then
      (if child.text ≠ some "true" then gitLoop rest (odSet git "skip-tag" (Value.bool false))
      else gitLoop rest git)
    else if child.tag = "pruneBranches" then
      (if child.text = some "true" then gitLoop rest (odSet git "prune" (Value.bool true))
      else gitLoop rest git)
    else if child.tag = "remotePoll" then
      (if child.text = some "true" then gitLoop rest (odSet git "fastpoll" (Value.bool true))
      else gitLoop rest git)
    else if child.tag = "relativeTargetDir" then
      (if pyTruthy child.text then gitLoop rest (odSet git "basedir" (vOfText child.text))
      else gitLoop rest git)
    else if child.tag = "reference" ∨ child.tag = "gitConfigName" ∨
        child.tag = "gitConfigEmail" ∨ child.tag = "scmName" then
      (if pyTruthy child.text ∨ ¬child.children.isEmpty then
        Except.error (PyErr.notImplemented child.tag)
      else gitLoop rest git)
    else if child.tag = "branches" then
      (match child.children with
       | [] => Except.error (PyErr.indexError "list index out of range")
       | c0 :: _ =>
         match c0.children with
         | [] => Except.error (PyErr.indexError "list index out of range")
         | b0 :: _ =>
           if b0.tag ≠ "name" then
             Except.error (PyErr.notImplemented (b0.tag ++ " XML not supported"))
           else
             gitLoop rest (odSet git "branches"
               (Value.list ((child.children.map
                 (fun item => item.children.map (fun branch => vOfText branch.text))).flatten))))
    else if child.tag = "localBranch" then
      gitLoop rest (odSet git "local-branch" (vOfText child.text))
    else if child.tag = "doGenerateSubmoduleConfigurations" then
      (if child.children.length ≠ 0 then
        Except.error (PyErr.notImplemented "doGenerateSubmoduleConfigurations with children")
      else gitLoop rest git)
    else if child.tag = "submoduleCfg" then
      (if child.children.length > 0 then
        Except.error (PyErr.notImplemented "submoduleCfg with children")
      else gitLoop rest git)
    else if child.tag = "browser" then
      (match getAttr child "class" with
       | Except.error e => Except.error e
       | Except.ok c =>
         if c = "hudson.plugins.git.browser.GitBlitRepositoryBrowser" then
           (match gitblitLoop child.children (odSet git "browser" (Value.str "gitblit")) with
            | Except.ok git' => gitLoop rest git'
            | Except.error e => Except.error e)
         else if c = "hudson.plugins.git.browser.GithubWeb" then
           (match githubwebLoop child.children (odSet git "browser" (Value.str "githubweb")) with
            | Except.ok git' => gitLoop rest git'
            | Except.error e => Except.error e)
         else if pyTruthy child.text ∨ ¬child.children.isEmpty then
           Except.error (PyErr.notImplemented ("cannot handle browser " ++ c))
         else gitLoop rest git)
    else if child.tag = "extensions" then
      (match extsLoop child.children git [] with
       | Except.ok (git', clean) =>
         gitLoop rest (if clean.isEmpty then git' else odSet git' "clean" (Value.dict clean))
       | Except.error e => Except.error e)
    else
      Except.error (PyErr.notImplemented ("cannot handle Git option " ++ child.tag))

/-- The compensating defaults of handle_scm (lines 413-419): ensure
wipe-workspace (false; the JJB default is true but the Jenkins default is
false) and skip-tag (true; the JJB default is false but the Jenkins
default is true) when the loop did not set them. -/
def scmDefaults (git : List (String × Value)) : List (String × Value) :=
  let git1 := if odHas git "wipe-workspace" then git
    else odSet git "wipe-workspace" (Value.bool false)
  if odHas git1 "skip-tag" then git1
  else odSet git1 "skip-tag" (Value.bool true)

/-- The try block of handle_scm (lines 221-424): build the git record, add
the compensating defaults, and on NotImplementedError fall back to raw XML
for this scm. -/
def scmTryBody (top : Elem) : Except PyErr (List Value) :=
  match gitLoop top.children [] with
  | Except.ok git => Except.ok [Value.dict [("git", Value.dict (scmDefaults git))]]
  | Except.error (PyErr.notImplemented _) => Except.ok (insert_rawxml top [])
  | Except.error e => Except.error e

/-- Extraction `handle_scm(scm)[0][1][0]` of the multi-scm loop
(line 212), with the Python errors of each subscript step. -/
def multiExtract (r : Option (List (String × Value))) : Except PyErr Value :=
  match r with
  | Option.none => Except.error (PyErr.typeError "NoneType object is not subscriptable")
  | some entries =>
    match entries with
    | [] => Except.error (PyErr.indexError "list index out of range")
    | (_, v0) :: _ =>
      match v0 with
      | Value.list items =>
        (match items with
         | [] => Except.error (PyErr.indexError "list index out of range")
         | it :: _ => Except.ok it)
      | _ => Except.error (PyErr.typeError "object is not subscriptable")

def multiLoop (rec_ : Elem → Except PyErr (Option (List (String × Value)))) :
    List Elem → Except PyErr (List Value)
  | [] => Except.ok []
  | scm :: rest =>
    match rec_ scm with
    | Except.error e => Except.error e
    | Except.ok r =>
      match multiExtract r with
      | Except.error e => Except.error e
      | Except.ok it =>
        match multiLoop rec_ rest with
        | Except.ok scms => Except.ok (it :: scms)
        | Except.error e => Except.error e

/-- The git road of handle_scm: run the try body and wrap the result as
the single scm entry (line 425). -/
def scmGitPath (top : Elem) : Except PyErr (Option (List (String × Value))) :=
  match scmTryBody top with
  | Except.ok scm => Except.ok (some [("scm", Value.list scm)])
  | Except.error e => Except.error e

/-- Body of handle_scm (lines 204-425).  Returns none for `return None`
(the NullSCM case).  The unsupported-scm check of lines 217-219 sits
outside the try block, so its NotImplementedError escapes the handler. -/
def handle_scmStep (rec_ : Elem → Except PyErr (Option (List (String × Value))))
    (top : Elem) : Except PyErr (Option (List (String × Value))) :=
  if findAttr top.attrib "class" = some "hudson.scm.NullSCM" then Except.ok Option.none
  else if findAttr top.attrib "class" = some "org.jenkinsci.plugins.multiplescms.MultiSCM" then
    (match top.children with
     | [] => Except.error (PyErr.indexError "list index out of range")
     | c0 :: _ =>
       match multiLoop rec_ c0.children with
       | Except.ok scms => Except.ok (some [("scm", Value.list scms)])
       | Except.error e => Except.error e)
  else if top.tag = "hudson.plugins.git.GitSCM" then scmGitPath top
  else
    match getAttr top "class" with
    | Except.error e => Except.error e
    | Except.ok c =>
      if c ≠ "hudson.plugins.git.GitSCM" then
        Except.error (PyErr.notImplemented (c ++ " scm not supported"))
      else scmGitPath top

/-- handle_scm (lines 204-425), iterated over fuel (only the multi-scm
wrapper recurses). -/
def handle_scm : Nat → Elem → Except PyErr (Option (List (String × Value)))
  | 0, _ => Except.error PyErr.fuel
  | Nat.succ f, top => handle_scmStep (handle_scm f) top

/-- Python str.lower (ASCII inputs here). -/
def pyLower (s : String) : String :=
  String.mk (s.data.map Char.toLower)

/-- Remainder of l after the leading occurrence of pat, if pat leads l. -/
def isPre : List Char → List Char → Option (List Char)
  | [], l => some l
  | _ :: _, [] => Option.none
  | p :: ps, c :: cs => if p = c then isPre ps cs else Option.none

def replAllAux (pat rep : List Char) : Nat → List Char → List Char
  | 0, l => l
  | _ + 1, [] => []
  | f + 1, c :: cs =>
    match isPre pat (c :: cs) with
    | some rem =>
      if pat.isEmpty then c :: replAllAux pat rep f cs
      else rep ++ replAllAux pat rep f rem
    | Option.none => c :: replAllAux pat rep f cs

/-- Python str.replace(pat, rep): replace every (non-overlapping,
left-to-right) occurrence.  Only used with a non-empty pattern. -/
def pyReplace (s pat rep : String) : String :=
  String.mk (replAllAux pat.data rep.data s.data.length s.data)

/-- Remove the first binding of a key (`attrib.pop(k)` after a successful
lookup). -/
def removeAttr : List (String × String) → String → List (String × String)
  | [], _ => []
  | p :: ps, k => if p.1 = k then ps else p :: removeAttr ps k

/-- The fixed artifact-copy selector table of handle_builder
(lines 607-616).  Looked up with a plain subscript, so a missing entry is
a KeyError, not a NotImplementedError. -/
def selectdict : List (String × String) :=
  [("StatusBuildSelector", "last-successful"),
   ("LastCompletedBuildSelector", "last-completed"),
   ("SpecificBuildSelector", "specific-build"),
   ("SavedBuildSelector", "last-saved"),
   ("TriggeredBuildSelector", "upstream-build"),
   ("PermalinkBuildSelector", "permalink"),
   ("WorkspaceSelector", "workspace-latest"),
   ("ParameterizedBuildSelector", "build-param"),
   ("DownstreamBuildSelector", "downstream-build")]

def lookupStr : List (String × String) → String → Option String
  | [], _ => Option.none
  | p :: ps, k => if p.1 = k then some p.2 else lookupStr ps k

/-- CopyArtifact element loop of handle_builder (lines 617-646). -/
def copyartifactLoop : List Elem → List (String × Value) → Except PyErr (List (String × Value))
  | [], ca => Except.ok ca
  | e :: rest, ca =>
    if e.tag = "project" ∨ e.tag = "filter" ∨ e.tag = "target" then
      copyartifactLoop rest (odSet ca e.tag (vOfText e.text))
    else if e.tag = "excludes" then
      copyartifactLoop rest (odSet ca "exclude-pattern" (vOfText e.text))
    else if e.tag = "selector" then
      (match getAttr e "class" with
       | Except.error er => Except.error er
       | Except.ok cls =>
         let select := pyReplace cls "hudson.plugins.copyartifact." ""
         match lookupStr selectdict select with
         | Option.none => Except.error (PyErr.keyError select)
         | some which =>
           let ca1 := odSet ca "which-build" (Value.str which)
           if which = "build-param" then
             copyartifactLoop rest (odSet ca1 "param" (vOfText (findtext e "parameterName")))
           else copyartifactLoop rest ca1)
    else if e.tag = "flatten" then
      copyartifactLoop rest (odSet ca "flatten" (Value.bool (e.text == some "true")))
    else if e.tag = "doNotFingerprintArtifacts" then
      (if e.text ≠ some "false" then
        Except.error (PyErr.notImplemented "cannot handle doNotFingerprintArtifacts != false")
      else copyartifactLoop rest ca)
    else if e.tag = "optional" then
      copyartifactLoop rest (odSet ca "optional" (Value.bool (e.text == some "true")))
    else Except.error (PyErr.notImplemented ("cannot handle XML " ++ e.tag))

def shellLoop : List Elem → Option Value → Except PyErr (Option Value)
  | [], sh => Except.ok sh
  | e :: rest, sh =>
    if e.tag = "command" then shellLoop rest (some (vOfText e.text))
    else
      let _ := sh
      Except.error (PyErr.notImplemented ("cannot handle XML " ++ e.tag))

/-- Shell branch of handle_builder (lines 649-658); with no command child
the local variable shell is unbound at the return. -/
def shellBody (builder : Elem) : Except PyErr Value :=
  match shellLoop builder.children Option.none with
  | Except.ok (some sh) => Except.ok (Value.dict [("shell", sh)])
  | Except.ok Option.none =>
    Except.error (PyErr.nameError "local variable shell referenced before assignment")
  | Except.error e => Except.error e

/-- SingleConditionalBuilder loop of handle_builder (lines 661-700).  The
buildStep branch rebinds the local variable builder to the reconstructed
node (line 695), so a later exception in the same loop would fall back on
the rebound node; the loop therefore threads the current binding, and
errors carry the binding live when they were raised. -/
def condLoop (rec_ : Elem → Except PyErr Value) :
    List Elem → List (String × Value) → Elem →
    Except (PyErr × Elem) (List (String × Value) × Elem)
  | [], cond, cur => Except.ok (cond, cur)
  | item :: rest, cond, cur =>
    if item.tag = "condition" then
      (match findAttr item.attrib "class" with
       | Option.none => Except.error (PyErr.keyError "class", cur)
       | some cls =>
         if cls = "org.jenkins_ci.plugins.run_condition.core.ExpressionCondition" then
           condLoop rec_ rest
             (odSet (odSet (odSet cond "condition-kind" (Value.str "regex-match"))
               "regex" (vOfText (findtext item "expression")))
               "label" (vOfText (findtext item "label"))) cur
         else if cls = "org.jenkins_ci.plugins.run_condition.core.AlwaysRun" then
           condLoop rec_ rest (odSet cond "condition-kind" (Value.str "always")) cur
         else if cls = "org.jenkins_ci.plugins.run_condition.core.NeverRun" then
           condLoop rec_ rest (odSet cond "condition-kind" (Value.str "never")) cur
         else if cls = "org.jenkins_ci.plugins.run_condition.core.StatusCondition" then
           condLoop rec_ rest
             (odSet (odSet (odSet cond "condition-kind" (Value.str "current-status"))
               "condition-worst" (vOfText (findtext item "worstResult/name")))
               "condition-best" (vOfText (findtext item "bestResult/name"))) cur
         else Except.error (PyErr.notImplemented ("cannot handle condition " ++ cls), cur))
    else if item.tag = "runner" then
      (match findAttr item.attrib "class" with
       | Option.none => Except.error (PyErr.keyError "class", cur)
       | some r =>
         if r = "org.jenkins_ci.plugins.run_condition.BuildStepRunner$Fail" then
           condLoop rec_ rest cond cur
         else Except.error (PyErr.notImplemented ("cannot handle conditional runner " ++ r), cur))
    else if item.tag = "buildStep" then
      (match findAttr item.attrib "class" with
       | Option.none => Except.error (PyErr.keyError "class", cur)
       | some cls =>
         let newb : Elem :=
           Elem.mk cls (removeAttr item.attrib "class") item.text item.children item.tail
         match rec_ newb with
         | Except.ok v => condLoop rec_ rest (odSet cond "steps" (Value.list [v])) newb
         | Except.error e => Except.error (e, newb))
    else
      Except.error (PyErr.notImplemented ("cannot handle conditional property " ++ item.tag), cur)

/-- Inner configs loop of the TriggerBuilder branch (lines 718-723). -/
def confconfLoop : List Elem → List (String × Value) → Except PyErr (List (String × Value))
  | [], tc => Except.ok tc
  | cc :: rest, tc =>
    if cc.tag = "hudson.plugins.parameterizedtrigger.PredefinedBuildParameters" then
      confconfLoop rest (odSet tc "predefined-parameters" (vOfText (findtext cc "properties")))
    else Except.error (PyErr.notImplemented ("cannot handle trigger config config " ++ cc.tag))

def factoryPropsLoop : List Elem → List (String × Value) → Except PyErr (List (String × Value))
  | [], fa => Except.ok fa
  | p :: rest, fa =>
    if p.tag = "filePattern" then
      factoryPropsLoop rest (odSet fa "file-pattern" (vOfText p.text))
    else if p.tag = "noFilesFoundAction" then
      factoryPropsLoop rest (odSet fa "no-files-found-action" (vOfText p.text))
    else
      Except.error (PyErr.notImplemented ("cannot handle trigger factory property " ++ p.tag))

/-- configFactories loop of the TriggerBuilder branch (lines 726-744). -/
def factoriesLoop : List Elem → List Value → Except PyErr (List Value)
  | [], fs => Except.ok fs
  | fn :: rest, fs =>
    if fn.tag = "hudson.plugins.parameterizedtrigger.FileBuildParameterFactory" then
      (match factoryPropsLoop fn.children [("factory", Value.str "filebuild")] with
       | Except.ok fa => factoriesLoop rest (fs ++ [Value.dict fa])
       | Except.error e => Except.error e)
    else Except.error (PyErr.notImplemented ("cannot handle trigger factory " ++ fn.tag))

/-- block threshold loop of the TriggerBuilder branch (lines 755-766). -/
def blockThLoop : List Elem → List (String × Value) → Except PyErr (List (String × Value))
  | [], bt => Except.ok bt
  | th :: rest, bt =>
    match findtext th "name" with
    | Option.none =>
      Except.error (PyErr.attributeError "NoneType object has no attribute lower")
    | some nm =>
      let value := pyLower nm
      if ¬(value = "never" ∨ value = "success" ∨ value = "unstable" ∨ value = "failure") then
        Except.error (PyErr.notImplemented ("cannot handle threshold value " ++ value))
      else if th.tag = "buildStepFailureThreshold" then
        blockThLoop rest (odSet bt "build-step-failure-threshold" (Value.str value))
      else if th.tag = "unstableThreshold" then
        blockThLoop rest (odSet bt "unstable-threshold" (Value.str value))
      else if th.tag = "failureThreshold" then
        blockThLoop rest (odSet bt "failure-threshold" (Value.str value))
      else Except.error (PyErr.notImplemented ("cannot handle threshold " ++ th.tag))

/-- Per-config property loop of the TriggerBuilder branch (lines 711-775). -/
def triggerPropLoop : List Elem → List (String × Value) → Except PyErr (List (String × Value))
  | [], tc => Except.ok tc
  | pn :: rest, tc =>
    if pn.tag = "projects" then
      (match pn.text with
       | Option.none => Except.error (PyErr.typeError "argument of type NoneType is not iterable")
       | some t =>
         let v := if t.contains ',' then Value.list ((t.splitOn ",").map Value.str)
           else Value.str t
         triggerPropLoop rest (odSet tc "project" v))
    else if pn.tag = "configs" then
      (match confconfLoop pn.children tc with
       | Except.ok tc' => triggerPropLoop rest tc'
       | Except.error e => Except.error e)
    else if pn.tag = "configFactories" then
      (match factoriesLoop pn.children [] with
       | Except.ok pf => triggerPropLoop rest (odSet tc "parameter-factories" (Value.list pf))
       | Except.error e => Except.error e)
    else if pn.tag = "block" then
      let tc1 := odSet tc "block" (Value.bool true)
      (match blockThLoop pn.children
          [("build-step-failure-threshold", Value.str "never"),
           ("unstable-threshold", Value.str "never"),
           ("failure-threshold", Value.str "never")] with
       | Except.ok bt => triggerPropLoop rest (odSet tc1 "block-thresholds" (Value.dict bt))
       | Except.error e => Except.error e)
    else if (pn.tag = "condition" ∧ pn.text = some "ALWAYS") ∨
        ((pn.tag = "triggerWithNoParameters" ∨ pn.tag = "buildAllNodesWithLabel") ∧
          pn.text = some "false") then
      triggerPropLoop rest tc
    else
      Except.error (PyErr.notImplemented ("cannot handle trigger config property " ++ pn.tag))

/-- configs loop of the TriggerBuilder branch (lines 706-777).  The
unsupported-config raise at line 708 formats item.tag where no local
item exists, so reaching it raises NameError, not NotImplementedError. -/
def triggerConfigsLoop : List Elem → List Value → Except PyErr (List Value)
  | [], tcs => Except.ok tcs
  | cn :: rest, tcs =>
    if cn.tag ≠ "hudson.plugins.parameterizedtrigger.BlockableBuildTriggerConfig" then
      Except.error (PyErr.nameError "name item is not defined")
    else
      match triggerPropLoop cn.children [] with
      | Except.ok tc => triggerConfigsLoop rest (tcs ++ [Value.dict tc])
      | Except.error e => Except.error e

/-- TriggerBuilder branch of handle_builder (lines 704-779). -/
def triggerBuilderBody (builder : Elem) : Except PyErr Value :=
  match findSeg builder.children "configs" with
  | Option.none => Except.error (PyErr.typeError "NoneType object is not iterable")
  | some cfgs =>
    match triggerConfigsLoop cfgs.children [] with
    | Except.ok tcs => Except.ok (Value.dict [("trigger-builds", Value.list tcs)])
    | Except.error e => Except.error e

/-- The try body of handle_builder (lines 604-782): dispatch on the
builder tag.  Errors carry the binding of the local variable builder at
raise time (only the buildStep branch rebinds it). -/
def handle_builderBody (rec_ : Elem → Except PyErr Value) (builder : Elem) :
    Except (PyErr × Elem) Value :=
  if builder.tag = "hudson.plugins.copyartifact.CopyArtifact" then
    (match copyartifactLoop builder.children [] with
     | Except.ok ca => Except.ok (Value.dict [("copyartifact", Value.dict ca)])
     | Except.error e => Except.error (e, builder))
  else if builder.tag = "hudson.tasks.Shell" then
    (match shellBody builder with
     | Except.ok v => Except.ok v
     | Except.error e => Except.error (e, builder))
  else if builder.tag = "org.jenkinsci.plugins.conditionalbuildstep.singlestep.SingleConditionalBuilder" then
    (match condLoop rec_ builder.children [] builder with
     | Except.ok (cond, _) => Except.ok (Value.dict [("conditional-step", Value.dict cond)])
     | Except.error (e, b') => Except.error (e, b'))
  else if builder.tag = "hudson.plugins.parameterizedtrigger.TriggerBuilder" then
    (match triggerBuilderBody builder with
     | Except.ok v => Except.ok v
     | Except.error e => Except.error (e, builder))
  else Except.error (PyErr.notImplemented ("cannot handle builder " ++ builder.tag), builder)

/-- handle_builder (lines 603-786), iterated over fuel (the conditional
build step recurses): try the body, catch exactly NotImplementedError and
fall back to raw XML of the current builder binding. -/
def handle_builder : Nat → Elem → Except PyErr Value
  | 0, _ => Except.error PyErr.fuel
  | Nat.succ f, builder =>
    match handle_builderBody (handle_builder f) builder with
    | Except.ok v => Except.ok v
    | Except.error (PyErr.notImplemented _, b') => Except.ok (create_rawxml b')
    | Except.error (e, _) => Except.error e

def buildersLoop (f : Nat) : List Elem → Except PyErr (List Value)
  | [] => Except.ok []
  | c :: rest =>
    match handle_builder f c with
    | Except.ok v =>
      (match buildersLoop f rest with
       | Except.ok vs => Except.ok (v :: vs)
       | Except.error e => Except.error e)
    | Except.error e => Except.error e

/-- handle_builders (lines 596-600). -/
def handle_builders (f : Nat) (top : Elem) : Except PyErr (List (String × Value)) :=
  match buildersLoop f top.children with
  | Except.ok bs => Except.ok [("builders", Value.list bs)]
  | Except.error e => Except.error e

/-- EnvInjectPasswordWrapper loop of handle_buildwrapper (lines 1097-1108). -/
def injectLoop : List Elem → List (String × Value) → Except PyErr (List (String × Value))
  | [], inj => Except.ok inj
  | e :: rest, inj =>
    if e.tag = "injectGlobalPasswords" then
      injectLoop rest (odSet inj "global" (Value.bool (e.text == some "true")))
    else if e.tag = "maskPasswordParameters" then
      injectLoop rest (odSet inj "mask-password-params" (Value.bool (e.text == some "true")))
    else if e.tag = "passwordEntries" then
      (if e.children.length > 0 then
        Except.error (PyErr.notImplemented "TODO: implement handling here")
      else injectLoop rest inj)
    else Except.error (PyErr.notImplemented ("cannot handle XML " ++ e.tag))

def timeoutOpsLoop : List Elem → List (String × Value) → Except PyErr (List (String × Value))
  | [], t => Except.ok t
  | op :: rest, t =>
    if op.tag = "hudson.plugins.build__timeout.operations.FailOperation" then
      timeoutOpsLoop rest (odSet t "fail" (Value.bool true))
    else
      Except.error (PyErr.notImplemented ("cannot handle BuildTimeoutWrapper operation " ++ op.tag))

/-- BuildTimeoutWrapper loop of handle_buildwrapper (lines 1112-1131). -/
def timeoutLoop : List Elem → List (String × Value) → Except PyErr (List (String × Value))
  | [], t => Except.ok t
  | e :: rest, t =>
    if e.tag = "strategy" then
      (match getAttr e "class" with
       | Except.error er => Except.error er
       | Except.ok c =>
         if c = "hudson.plugins.build_timeout.impl.AbsoluteTimeOutStrategy" then
           (match pyIntText (findtext e "timeoutMinutes") with
            | Except.ok n =>
              timeoutLoop rest (odSet (odSet t "type" (Value.str "absolute")) "timeout" (Value.int n))
            | Except.error er => Except.error er)
         else
           Except.error (PyErr.notImplemented ("cannot handle BuildTimeoutWrapper strategy " ++ c)))
    else if e.tag = "operationList" then
      (match timeoutOpsLoop e.children t with
       | Except.ok t' => timeoutLoop rest t'
       | Except.error er => Except.error er)
    else
      Except.error (PyErr.notImplemented ("cannot handle BuildTimeoutWrapper wrapper " ++ e.tag))

/-- SSHAgentBuildWrapper loop of handle_buildwrapper (lines 1140-1150). -/
def sshAgentLoop : List Elem → List (String × Value) → Except PyErr (List (String × Value))
  | [], s => Except.ok s
  | e :: rest, s =>
    if e.tag = "credentialIds" then
      sshAgentLoop rest (odSet s "users" (Value.list (e.children.map (fun k => vOfText k.text))))
    else if e.tag = "ignoreMissing" then sshAgentLoop rest s
    else Except.error (PyErr.notImplemented ("cannot handle XML " ++ e.tag))

/-- The try body of handle_buildwrapper (lines 1095-1158). -/
def handle_buildwrapperBody (wrapper : Elem) : Except PyErr Value :=
  if wrapper.tag = "EnvInjectPasswordWrapper" then
    (match injectLoop wrapper.children [] with
     | Except.ok inj => Except.ok (Value.dict [("inject", Value.dict inj)])
     | Except.error e => Except.error e)
  else if wrapper.tag = "hudson.plugins.build__timeout.BuildTimeoutWrapper" then
    (match timeoutLoop wrapper.children [] with
     | Except.ok t => Except.ok (Value.dict [("timeout", Value.dict t)])
     | Except.error e => Except.error e)
  else if wrapper.tag = "hudson.plugins.ansicolor.AnsiColorBuildWrapper" then
    Except.ok (Value.dict [("ansicolor", Value.dict [("colormap", Value.str "xterm")])])
  else if wrapper.tag = "com.cloudbees.jenkins.plugins.sshagent.SSHAgentBuildWrapper" then
    (match sshAgentLoop wrapper.children [] with
     | Except.ok s => Except.ok (Value.dict [("ssh-agent-credentials", Value.dict s)])
     | Except.error e => Except.error e)
  else if wrapper.tag = "org.jenkinsci.plugins.buildnamesetter.BuildNameSetter" then
    (match wrapper.children with
     | [] => Except.error (PyErr.indexError "list index out of range")
     | w0 :: _ =>
       Except.ok (Value.dict [("build-name", Value.dict [("name", vOfText w0.text)])]))
  else Except.error (PyErr.notImplemented ("cannot handle XML " ++ wrapper.tag))

/-- handle_buildwrapper (lines 1093-1162): catch exactly
NotImplementedError and fall back to raw XML. -/
def handle_buildwrapper (wrapper : Elem) : Except PyErr Value :=
  match handle_buildwrapperBody wrapper with
  | Except.error (PyErr.notImplemented _) => Except.ok (create_rawxml wrapper)
  | r => r

def wrappersLoop : List Elem → Except PyErr (List Value)
  | [] => Except.ok []
  | c :: rest =>
    match handle_buildwrapper c with
    | Except.ok v =>
      (match wrappersLoop rest with
       | Except.ok vs => Except.ok (v :: vs)
       | Except.error e => Except.error e)
    | Except.error e => Except.error e

/-- handle_buildwrappers (lines 1084-1090). -/
def handle_buildwrappers (top : Elem) : Except PyErr (List (String × Value)) :=
  match wrappersLoop top.children with
  | Except.ok ws => Except.ok [("wrappers", Value.list ws)]
  | Except.error e => Except.error e

/-! The cobertura branch of handle_publishers keeps its per-metric
accumulator in a plain Python 2 dict (`targetList = {}`, line 1033) and
emits records by iterating it (`targetList.items()`, line 1066).  A
CPython 2 dict iterates in hash-table slot order, so the emission order is
that of the interpreter's open-addressing table, not insertion order.  The
following models the CPython 2.7 behaviour on a 64-bit build with hash
randomization off (the default): the string hash of stringobject.c and the
probing, growth and iteration of dictobject.c. -/

/-- CPython 2.7 string hash (64-bit unsigned representation). -/
def pyHash2 (s : String) : Nat :=
  match s.data with
  | [] => 0
  | c :: _ =>
    let x0 := (c.toNat <<< 7) % (2 ^ 64)
    let x := s.data.foldl (fun x c => ((1000003 * x) ^^^ c.toNat) % (2 ^ 64)) x0
    let x := x ^^^ s.length
    if x = 2 ^ 64 - 1 then 2 ^ 64 - 2 else x

/-- CPython 2.7 lookdict probing: find the slot holding key, or the first
empty slot; i evolves as i = 5*i + perturb + 1 (mod 2^64) with
perturb = hash shifted right by 5 each round, indexing at i & mask. -/
def probeSlot (table : List (Option String)) (mask : Nat) (key : String) :
    Nat → Nat → Nat → Option Nat
  | 0, _, _ => Option.none
  | pf + 1, i, perturb =>
    let idx := i &&& mask
    match table.getD idx Option.none with
    | Option.none => some idx
    | some k' =>
      if k' = key then some idx
      else probeSlot table mask key pf ((5 * i + perturb + 1) % (2 ^ 64)) (perturb >>> 5)

def slotFor (table : List (Option String)) (key : String) : Option Nat :=
  probeSlot table (table.length - 1) key (table.length * 70 + 70)
    ((pyHash2 key) &&& (table.length - 1)) (pyHash2 key)

/-- dictresize reinsertion: old entries in slot order into a fresh table. -/
def reinsertAll : List String → List (Option String) → Option (List (Option String))
  | [], t => some t
  | k :: ks, t =>
    match slotFor t k with
    | some idx => reinsertAll ks (t.set idx (some k))
    | Option.none => Option.none

/-- Smallest table size 8 * 2^j exceeding minused (the dictresize loop). -/
def growSize : Nat → Nat → Nat → Nat
  | 0, ns, _ => ns
  | f + 1, ns, minused => if ns ≤ minused then growSize f (ns * 2) minused else ns

/-- PyDict_SetItem for a new key: place it, and grow the table
(to the smallest power of two above 4*used) once fill*3 >= size*2. -/
def py2DictInsert (table : List (Option String)) (key : String) :
    Option (List (Option String)) :=
  match slotFor table key with
  | Option.none => Option.none
  | some idx =>
    if table.getD idx Option.none = some key then some table
    else
      let t1 := table.set idx (some key)
      let used := (t1.filterMap id).length
      if used * 3 ≥ t1.length * 2 then
        reinsertAll (t1.filterMap id) (List.replicate (growSize 64 8 (used * 4)) Option.none)
      else some t1

def py2DictTable : List String → Option (List (Option String))
  | [] => some (List.replicate 8 Option.none)
  | k :: ks =>
    match py2DictTable ks with
    | some t => py2DictInsert t k
    | Option.none => Option.none

/-- Iteration order of a CPython 2.7 dict holding exactly the given keys,
inserted in the given order (the list is processed right to left by
py2DictTable, so reverse first): the non-empty slots in table order. -/
def py2DictOrder (keys : List String) : Option (List String) :=
  match py2DictTable keys.reverse with
  | some t => some (t.filterMap id)
  | Option.none => Option.none

/-- ArtifactArchiver loop of handle_publishers (lines 796-813). -/
def archiveLoop : List Elem → List (String × Value) → Except PyErr (List (String × Value))
  | [], a => Except.ok a
  | e :: rest, a =>
    if e.tag = "artifacts" then archiveLoop rest (odSet a "artifacts" (vOfText e.text))
    else if e.tag = "allowEmptyArchive" then
      archiveLoop rest (odSet a "allow-empty" (Value.bool (e.text == some "true")))
    else if e.tag = "excludes" then archiveLoop rest (odSet a "excludes" (vOfText e.text))
    else if e.tag = "fingerprint" then
      archiveLoop rest (odSet a "fingerprint" (Value.bool (e.text == some "true")))
    else if e.tag = "onlyIfSuccessful" then
      archiveLoop rest (odSet a "only-if-success" (Value.bool (e.text == some "true")))
    else if e.tag = "defaultExcludes" then
      archiveLoop rest (odSet a "default-excludes" (Value.bool (e.text == some "true")))
    else Except.error (PyErr.notImplemented ("cannot handle XML " ++ e.tag))

/-- DescriptionSetterPublisher loop (lines 819-830). -/
def descSetterLoop : List Elem → List (String × Value) → Except PyErr (List (String × Value))
  | [], s => Except.ok s
  | e :: rest, s =>
    if e.tag = "regexp" then descSetterLoop rest (odSet s "regexp" (vOfText e.text))
    else if e.tag = "regexpForFailed" then
      descSetterLoop rest (odSet s "regexp-for-failed" (vOfText e.text))
    else if e.tag = "setForMatrix" then
      descSetterLoop rest (odSet s "set-for-matrix" (Value.bool (e.text == some "true")))
    else if e.tag = "description" then descSetterLoop rest (odSet s "description" (vOfText e.text))
    else Except.error (PyErr.notImplemented ("cannot handle XML " ++ e.tag))

/-- Fingerprinter loop (lines 836-843). -/
def fingerprintLoop : List Elem → List (String × Value) → Except PyErr (List (String × Value))
  | [], fp => Except.ok fp
  | e :: rest, fp =>
    if e.tag = "targets" then fingerprintLoop rest (odSet fp "files" (vOfText e.text))
    else if e.tag = "recordBuildArtifacts" then
      fingerprintLoop rest (odSet fp "record-artifacts" (Value.bool (e.text == some "true")))
    else Except.error (PyErr.notImplemented ("cannot handle XML " ++ e.tag))

/-- Anchored namespace elision of the email-ext trigger class
(re.sub at line 908). -/
def emailTriggerClass (tag : String) : String :=
  match isPre "hudson.plugins.emailext.plugins.trigger.".data tag.data with
  | some rem => String.mk rem
  | Option.none => tag

/-- configuredTriggers loop of the email-ext branch (lines 905-938). -/
def emailTriggersLoop : List Elem → List (String × Value) → Except PyErr (List (String × Value))
  | [], ee => Except.ok ee
  | tr :: rest, ee =>
    let cls := emailTriggerClass tr.tag
    if cls = "AlwaysTrigger" then emailTriggersLoop rest (odSet ee "always" (Value.bool true))
    else if cls = "UnstableTrigger" then
      emailTriggersLoop rest (odSet ee "unstable" (Value.bool true))
    else if cls = "FirstFailureTrigger" then
      emailTriggersLoop rest (odSet ee "first-failure" (Value.bool true))
    else if cls = "NotBuiltTrigger" then
      emailTriggersLoop rest (odSet ee "not-built" (Value.bool true))
    else if cls = "AbortedTrigger" then
      emailTriggersLoop rest (odSet ee "aborted" (Value.bool true))
    else if cls = "RegressionTrigger" then
      emailTriggersLoop rest (odSet ee "regression" (Value.bool true))
    else if cls = "FailureTrigger" then
      emailTriggersLoop rest (odSet ee "failure" (Value.bool true))
    else if cls = "SecondFailureTrigger" then
      emailTriggersLoop rest (odSet ee "second-failure" (Value.bool true))
    else if cls = "ImprovementTrigger" then
      emailTriggersLoop rest (odSet ee "improvement" (Value.bool true))
    else if cls = "StillFailingTrigger" then
      emailTriggersLoop rest (odSet ee "still-failing" (Value.bool true))
    else if cls = "SuccessTrigger" then
      emailTriggersLoop rest (odSet ee "success" (Value.bool true))
    else if cls = "FixedTrigger" then
      emailTriggersLoop rest (odSet ee "fixed" (Value.bool true))
    else if cls = "StillUnstableTrigger" then
      emailTriggersLoop rest (odSet ee "still-unstable" (Value.bool true))
    else if cls = "PreBuildTrigger" then
      emailTriggersLoop rest (odSet ee "pre-build" (Value.bool true))
    else Except.error (PyErr.notImplemented ("cannot handle email-ext trigger " ++ tr.tag))

def mimeContentType : List (String × String) :=
  [("text/plain", "text"), ("text/html", "html"), ("both", "both-html-text")]

/-- ExtendedEmailPublisher loop (lines 847-941). -/
def emailExtLoop : List Elem → List (String × Value) → Except PyErr (List (String × Value))
  | [], ee => Except.ok ee
  | e :: rest, ee =>
    if e.tag = "recipientList" then
      emailExtLoop rest (if e.text ≠ some "$DEFAULT_RECIPIENTS" then
        odSet ee "recipients" (vOfText e.text) else ee)
    else if e.tag = "replyTo" then
      emailExtLoop rest (if e.text ≠ some "$DEFAULT_REPLYTO" then
        odSet ee "reply-to" (vOfText e.text) else ee)
    else if e.tag = "contentType" then
      (if e.text ≠ some "default" then
        match (match e.text with
               | some c => lookupStr mimeContentType c
               | Option.none => Option.none) with
        | some v => emailExtLoop rest (odSet ee "content-type" (Value.str v))
        | Option.none =>
          Except.error (PyErr.notImplemented "cannot handle email-ext contentType")
      else emailExtLoop rest ee)
    else if e.tag = "defaultSubject" then
      emailExtLoop rest (if e.text ≠ some "$DEFAULT_SUBJECT" then
        odSet ee "subject" (vOfText e.text) else ee)
    else if e.tag = "defaultContent" then
      emailExtLoop rest (if e.text ≠ some "$DEFAULT_CONTENT" then
        odSet ee "body" (vOfText e.text) else ee)
    else if e.tag = "attachBuildLog" then
      emailExtLoop rest (if e.text = some "true" then
        odSet ee "attach-build-log" (Value.bool true) else ee)
    else if e.tag = "compressBuildLog" then
      emailExtLoop rest (if e.text = some "true" then
        odSet ee "compress-build-log" (Value.bool true) else ee)
    else if e.tag = "attachmentsPattern" then
      emailExtLoop rest (if pyTruthy e.text then
        odSet ee "attachments" (vOfText e.text) else ee)
    else if e.tag = "saveOutput" then
      emailExtLoop rest (if e.text = some "true" then
        odSet ee "save-output" (Value.bool true) else ee)
    else if e.tag = "disabled" then
      emailExtLoop rest (if e.text = some "true" then
        odSet ee "disable-publisher" (Value.bool true) else ee)
    else if e.tag = "presendScript" then
      emailExtLoop rest (if e.text ≠ some "$DEFAULT_PRESEND_SCRIPT" then
        odSet ee "presend-script" (vOfText e.text) else ee)
    else if e.tag = "configuredTriggers" then
      (match emailTriggersLoop e.children (odSet ee "failure" (Value.bool false)) with
       | Except.ok ee' => emailExtLoop rest ee'
       | Except.error er => Except.error er)
    else Except.error (PyErr.notImplemented ("cannot handle XML " ++ e.tag))

/-- JUnitResultArchiver loop (lines 947-957). -/
def junitLoop : List Elem → List (String × Value) → Except PyErr (List (String × Value))
  | [], j => Except.ok j
  | e :: rest, j =>
    if e.tag = "testResults" then junitLoop rest (odSet j "results" (vOfText e.text))
    else if e.tag = "keepLongStdio" then
      junitLoop rest (odSet j "keep-long-stdio" (Value.bool (e.text == some "true")))
    else if e.tag = "healthScaleFactor" then
      junitLoop rest (odSet j "health-scale-factor" (vOfText e.text))
    else Except.error (PyErr.notImplemented ("cannot handle XML " ++ e.tag))

/-- The innermost config loop of the parameterized BuildTrigger branch
(lines 966-978). -/
def btConfigLoop : List Elem → List (String × Value) → Except PyErr (List (String × Value))
  | [], bt => Except.ok bt
  | cfg :: rest, bt =>
    if cfg.tag = "projects" then btConfigLoop rest (odSet bt "project" (vOfText cfg.text))
    else if cfg.tag = "condition" then btConfigLoop rest (odSet bt "condition" (vOfText cfg.text))
    else if cfg.tag = "triggerWithNoParameters" then
      btConfigLoop rest (odSet bt "trigger-with-no-params" (Value.bool (cfg.text == some "true")))
    else if cfg.tag = "configs" then btConfigLoop rest bt
    else Except.error (PyErr.notImplemented ("cannot handle XML " ++ cfg.tag))

def btSubLoop : List Elem → List (String × Value) → Except PyErr (List (String × Value))
  | [], bt => Except.ok bt
  | sub :: rest, bt =>
    if sub.tag = "hudson.plugins.parameterizedtrigger.BuildTriggerConfig" then
      (match btConfigLoop sub.children bt with
       | Except.ok bt' => btSubLoop rest bt'
       | Except.error e => Except.error e)
    else btSubLoop rest bt

/-- Parameterized BuildTrigger branch (lines 960-980): two nested loops
around the config loop; unknown sub tags are silently skipped. -/
def btElemLoop : List Elem → List (String × Value) → Except PyErr (List (String × Value))
  | [], bt => Except.ok bt
  | e :: rest, bt =>
    match btSubLoop e.children bt with
    | Except.ok bt' => btElemLoop rest bt'
    | Except.error er => Except.error er

/-- Mailer loop (lines 983-996). -/
def mailerLoop : List Elem → List (String × Value) → Except PyErr (List (String × Value))
  | [], m => Except.ok m
  | e :: rest, m =>
    if e.tag = "recipients" then mailerLoop rest (odSet m "recipients" (vOfText e.text))
    else if e.tag = "dontNotifyEveryUnstableBuild" then
      mailerLoop rest (odSet m "notify-every-unstable-build" (Value.bool (e.text == some "true")))
    else if e.tag = "sendToIndividuals" then
      mailerLoop rest (odSet m "send-to-individuals" (Value.bool (e.text == some "true")))
    else Except.error (PyErr.notImplemented ("cannot handle email " ++ e.tag))

/-- HtmlPublisherTarget loop (lines 1007-1026). -/
def htmlTargetLoop : List Elem → List (String × Value) → Except PyErr (List (String × Value))
  | [], h => Except.ok h
  | e :: rest, h =>
    if e.tag = "reportName" then htmlTargetLoop rest (odSet h "name" (vOfText e.text))
    else if e.tag = "reportDir" then htmlTargetLoop rest (odSet h "dir" (vOfText e.text))
    else if e.tag = "reportFiles" then htmlTargetLoop rest (odSet h "files" (vOfText e.text))
    else if e.tag = "alwaysLinkToLastBuild" then
      htmlTargetLoop rest (odSet h "link-to-last-build" (Value.bool (e.text == some "true")))
    else if e.tag = "keepAll" then
      htmlTargetLoop rest (odSet h "keep-all" (Value.bool (e.text == some "true")))
    else if e.tag = "allowMissing" then
      htmlTargetLoop rest (odSet h "allow-missing" (Value.bool (e.text == some "true")))
    else if e.tag = "wrapperName" ∧ e.text = some "htmlpublisher-wrapper.html" then
      htmlTargetLoop rest h
    else Except.error (PyErr.notImplemented ("cannot handle html setting " ++ e.tag))

/-- HtmlPublisher branch (lines 999-1027) with its shape check. -/
def htmlPublisherBody (child : Elem) : Except PyErr Value :=
  match child.children with
  | [c0] =>
    (match c0.children with
     | [t0] =>
       if c0.tag ≠ "reportTargets" ∨ t0.tag ≠ "htmlpublisher.HtmlPublisherTarget" then
         Except.error (PyErr.notImplemented "can only handle a single HtmlPublisherTarget")
       else
         match htmlTargetLoop t0.children [] with
         | Except.ok h => Except.ok (Value.dict [("html-publisher", Value.dict h)])
         | Except.error e => Except.error e
     | _ => Except.error (PyErr.notImplemented "can only handle a single HtmlPublisherTarget"))
  | _ => Except.error (PyErr.notImplemented "can only handle a single HtmlPublisherTarget")

/-- The per-metric threshold table of the cobertura branch (lines
1030-1032). -/
def coberturaTargets : List (String × String) :=
  [("healthyTarget", "healthy"), ("unhealthyTarget", "unhealthy"), ("failingTarget", "failing")]

/-- The targets/entry loop of one threshold element (lines 1057-1062):
key the temporary mapping by the lower-cased metric name and deep-merge
in {targets[param.tag]: int(number.text)} with dict_merge (the overlay is
flat, so fuel 2 always suffices). -/
def cobEntriesLoop (tname : String) :
    List Elem → List (String × Value) → Except PyErr (List (String × Value))
  | [], tl => Except.ok tl
  | te :: rest, tl =>
    match findSeg te.children "hudson.plugins.cobertura.targets.CoverageMetric" with
    | Option.none => Except.error (PyErr.attributeError "NoneType object has no attribute text")
    | some metric =>
      match metric.text with
      | Option.none => Except.error (PyErr.attributeError "NoneType object has no attribute lower")
      | some mt =>
        let key := pyLower mt
        let tl1 := if odHas tl key then tl else odSet tl key (Value.dict [])
        match findSeg te.children "int" with
        | Option.none => Except.error (PyErr.attributeError "NoneType object has no attribute text")
        | some number =>
          match pyIntText number.text with
          | Except.error e => Except.error e
          | Except.ok n =>
            match odGet tl1 key with
            | some base =>
              (match dict_merge 2 base (Value.dict [(tname, Value.int n)]) with
               | Except.ok m => cobEntriesLoop tname rest (odSet tl1 key m)
               | Except.error e => Except.error e)
            | Option.none => Except.error (PyErr.keyError key)

/-- CoberturaPublisher param loop (lines 1034-1065); threads the cobertura
OrderedDict and the plain-dict accumulator targetList (stored here in
first-encounter order; the plain-dict iteration order is applied at
emission).  Unknown param tags fall out of the elif chain and are
silently skipped. -/
def cobParamsLoop : List Elem → List (String × Value) → List (String × Value) →
    Except PyErr (List (String × Value) × List (String × Value))
  | [], cob, tl => Except.ok (cob, tl)
  | param :: rest, cob, tl =>
    if param.tag = "coberturaReportFile" then
      cobParamsLoop rest (odSet cob "report-file" (vOfText param.text)) tl
    else if param.tag = "onlyStable" then
      cobParamsLoop rest (odSet cob "only-stable" (Value.bool (param.text == some "true"))) tl
    else if param.tag = "failUnhealthy" then
      cobParamsLoop rest (odSet cob "fail-unhealthy" (Value.bool (param.text == some "true"))) tl
    else if param.tag = "failUnstable" then
      cobParamsLoop rest (odSet cob "fail-unstable" (Value.bool (param.text == some "true"))) tl
    else if param.tag = "autoUpdateHealth" then
      cobParamsLoop rest (odSet cob "health-auto-update" (Value.bool (param.text == some "true"))) tl
    else if param.tag = "autoUpdateStability" then
      cobParamsLoop rest
        (odSet cob "stability-auto-update" (Value.bool (param.text == some "true"))) tl
    else if param.tag = "zoomCoverageChart" then
      cobParamsLoop rest
        (odSet cob "zoom-coverage-chart" (Value.bool (param.text == some "true"))) tl
    else if param.tag = "failNoReports" then
      cobParamsLoop rest (odSet cob "fail-no-report" (Value.bool (param.text == some "true"))) tl
    else if param.tag = "sourceEncoding" then
      cobParamsLoop rest (odSet cob "source-encoding" (vOfText param.text)) tl
    else
      match lookupStr coberturaTargets param.tag with
      | some tname =>
        let cob1 := if odHas cob "targets" then cob else odSet cob "targets" (Value.list [])
        (match cobEntriesLoop tname (findall2 param "targets" "entry") tl with
         | Except.ok tl' => cobParamsLoop rest cob1 tl'
         | Except.error e => Except.error e)
      | Option.none => cobParamsLoop rest cob tl

/-- CoberturaPublisher branch (lines 1028-1068): run the param loop, then
emit the per-metric records by iterating the plain dict targetList -
i.e. in CPython 2.7 hash-table order, not first-encounter order. -/
def coberturaBody (child : Elem) : Except PyErr Value :=
  match cobParamsLoop child.children [] [] with
  | Except.error e => Except.error e
  | Except.ok (cob, tl) =>
    match py2DictOrder (tl.map (fun p => p.1)) with
    | Option.none => Except.error PyErr.fuel
    | some order =>
      let recs := order.map (fun k => Value.dict [(k, (odGet tl k).getD Value.null)])
      if recs.isEmpty then Except.ok (Value.dict [("cobertura", Value.dict cob)])
      else
        match odGet cob "targets" with
        | some (Value.list cur) =>
          Except.ok (Value.dict [("cobertura",
            Value.dict (odSet cob "targets" (Value.list (cur ++ recs))))])
        | some _ => Except.error (PyErr.attributeError "append")
        | Option.none => Except.error (PyErr.keyError "targets")

/-- The per-child dispatch of handle_publishers (lines 794-1075, minus
the SlackNotifier arm), the body of the try at line 792. -/
def handle_publishers_dispatch (child : Elem) : Except PyErr Value :=
  if child.tag = "hudson.tasks.ArtifactArchiver" then
    (match archiveLoop child.children [] with
     | Except.ok a => Except.ok (Value.dict [("archive", Value.dict a)])
     | Except.error e => Except.error e)
  else if child.tag = "hudson.plugins.descriptionsetter.DescriptionSetterPublisher" then
    (match descSetterLoop child.children [] with
     | Except.ok s => Except.ok (Value.dict [("description-setter", Value.dict s)])
     | Except.error e => Except.error e)
  else if child.tag = "hudson.tasks.Fingerprinter" then
    (match fingerprintLoop child.children [] with
     | Except.ok fp => Except.ok (Value.dict [("fingerprint", Value.dict fp)])
     | Except.error e => Except.error e)
  else if child.tag = "hudson.plugins.emailext.ExtendedEmailPublisher" then
    (match emailExtLoop child.children [] with
     | Except.ok ee => Except.ok (Value.dict [("email-ext", Value.dict ee)])
     | Except.error e => Except.error e)
  else if child.tag = "hudson.tasks.junit.JUnitResultArchiver" then
    (match junitLoop child.children [] with
     | Except.ok j => Except.ok (Value.dict [("junit", Value.dict j)])
     | Except.error e => Except.error e)
  else if child.tag = "hudson.plugins.parameterizedtrigger.BuildTrigger" then
    (match btElemLoop child.children [] with
     | Except.ok bt =>
       Except.ok (Value.dict [("trigger-parameterized-builds", Value.dict bt)])
     | Except.error e => Except.error e)
  else if child.tag = "hudson.tasks.Mailer" then
    (match mailerLoop child.children [] with
     | Except.ok m => Except.ok (Value.dict [("email", Value.dict m)])
     | Except.error e => Except.error e)
  else if child.tag = "htmlpublisher.HtmlPublisher" then htmlPublisherBody child
  else if child.tag = "hudson.plugins.cobertura.CoberturaPublisher" then coberturaBody child
  else Except.error (PyErr.notImplemented ("cannot handle XML " ++ child.tag))

/-- The per-child body of handle_publishers: a recognized SlackNotifier
child appends nothing (lines 1070-1072; no tag matches two arms of the
source's elif chain, so lifting this arm in front of the others preserves
the dispatch), every other child goes through the dispatch. -/
def handle_publishers_item (child : Elem) : Except PyErr (Option Value) :=
  if child.tag = "jenkins.plugins.slack.SlackNotifier" then Except.ok Option.none
  else
    match handle_publishers_dispatch child with
    | Except.ok v => Except.ok (some v)
    | Except.error e => Except.error e

/-- Child loop of handle_publishers (lines 791-1079): the try/except sits
inside the loop, so exactly a NotImplementedError of one child is replaced
by the Fallback Value for that child and the loop continues. -/
def pubsLoop : List Elem → Except PyErr (List Value)
  | [] => Except.ok []
  | c :: rest =>
    match handle_publishers_item c with
    | Except.error (PyErr.notImplemented _) =>
      (match pubsLoop rest with
       | Except.ok vs => Except.ok (create_rawxml c :: vs)
       | Except.error e => Except.error e)
    | Except.error e => Except.error e
    | Except.ok Option.none => pubsLoop rest
    | Except.ok (some v) =>
      (match pubsLoop rest with
       | Except.ok vs => Except.ok (v :: vs)
       | Except.error e => Except.error e)

/-- handle_publishers (lines 789-1081). -/
def handle_publishers (top : Elem) : Except PyErr (List (String × Value)) :=
  match pubsLoop top.children with
  | Except.ok ps => Except.ok [("publishers", Value.list ps)]
  | Except.error e => Except.error e

/-! Concrete inputs used by counterexamples and witnesses. -/

def c2node : Elem := el "foo" [] (some "x") []

def c3disabledFalse : Elem := el "disabled" [] (some "false") []

def c3disabledTrue : Elem := el "disabled" [] (some "true") []

def c3desc : Elem := el "description" [] (some "build it") []

def c7descMissing : Elem := el "description" [] Option.none []

def c7descTrue : Elem := el "description" [] (some "true") []

def c7params : Elem :=
  el "hudson.model.ParametersDefinitionProperty" [] Option.none
    [el "parameterDefinitions" [] Option.none
      [el "hudson.model.StringParameterDefinition" [] Option.none
        [el "name" [] (some "DEPLOY") [],
         el "description" [] Option.none [],
         el "defaultValue" [] (some "true") [],
         el "trim" [] (some "false") []]]]

def c4builder : Elem :=
  el "hudson.plugins.copyartifact.CopyArtifact" [] Option.none
    [el "project" [] (some "other-job") [],
     el "selector" [("class", "hudson.plugins.copyartifact.MagicBuildSelector")]
       Option.none []]

def c1slack : Elem := el "jenkins.plugins.slack.SlackNotifier" [] Option.none
  [el "room" [] (some "#ci") []]

def c1unknown : Elem := el "org.example.UnknownPublisher" [] (some "z") []

def c1top : Elem := el "publishers" [] Option.none [c1slack, c1unknown]

def c1wshell : Elem := el "hudson.tasks.Shell" [] Option.none
  [el "command" [] (some "make") []]

def c1wunknownBuilder : Elem := el "org.example.UnknownBuilder" [] Option.none []

def c1wbuilders : Elem := el "builders" [] Option.none [c1wshell, c1wunknownBuilder]

def c6heap : Heap :=
  ⟨[(0, [("a", HVal.href 1)]), (1, [("x", HVal.hint 1)]),
    (2, [("a", HVal.href 3)]), (3, [("y", HVal.hint 2)])], 4⟩

def c8gitDef (url : String) : Elem :=
  el "hudson.plugins.git.GitSCM" [] Option.none
    [el "userRemoteConfigs" [] Option.none
      [el "hudson.plugins.git.UserRemoteConfig" [] Option.none
        [el "url" [] (some url) []]],
     el "branches" [] Option.none
      [el "hudson.plugins.git.BranchSpec" [] Option.none
        [el "name" [] (some "master") []]]]

def c8gitRecord (url : String) : Value :=
  Value.dict [("git", Value.dict
    [("url", Value.str url), ("branches", Value.list [Value.str "master"]),
     ("wipe-workspace", Value.bool false), ("skip-tag", Value.bool true)])]

def c8multi : Elem :=
  el "scm" [("class", "org.jenkinsci.plugins.multiplescms.MultiSCM")] Option.none
    [el "scms" [] Option.none [c8gitDef "git://a", c8gitDef "git://b"]]

def c8null : Elem := el "scm" [("class", "hudson.scm.NullSCM")] Option.none []

def c9entry (metric n : String) : Elem :=
  el "entry" [] Option.none
    [el "hudson.plugins.cobertura.targets.CoverageMetric" [] (some metric) [],
     el "int" [] (some n) []]

def c9thr (kind : String) (es : List Elem) : Elem :=
  el kind [] Option.none [el "targets" [] Option.none es]

/-- A coverage publisher whose thresholds mention METHOD before LINE, in
both threshold kinds. -/
def c9cob : Elem :=
  el "hudson.plugins.cobertura.CoberturaPublisher" [] Option.none
    [el "coberturaReportFile" [] (some "coverage.xml") [],
     c9thr "healthyTarget" [c9entry "METHOD" "80", c9entry "LINE" "90"],
     c9thr "unhealthyTarget" [c9entry "METHOD" "50", c9entry "LINE" "60"]]

def c9top : Elem := el "publishers" [] Option.none [c9cob]

def c10minimalGit : Elem := el "scm" [("class", "hudson.plugins.git.GitSCM")] Option.none []

/-- First-encounter order of metric names in the c9cob accumulator. -/
def c9firstEncounter : List String :=
  match cobParamsLoop c9cob.children [] [] with
  | Except.ok (_, tl) => tl.map (fun p => p.1)
  | Except.error _ => []

def c9methodRec : Value :=
  Value.dict [("method", Value.dict [("healthy", Value.int 80), ("unhealthy", Value.int 50)])]

def c9lineRec : Value :=
  Value.dict [("line", Value.dict [("healthy", Value.int 90), ("unhealthy", Value.int 60)])]

def c9cobExpected : Value :=
  Value.dict [("cobertura", Value.dict
    [("report-file", Value.str "coverage.xml"),
     ("targets", Value.list [c9lineRec, c9methodRec])])]

/-- The result-key lookup of the merge loop restricted to dict values
(the `k in result and isinstance(result[k], dict)` test). -/
def odGetDict (res : List (String × Value)) (k : String) : Option (List (String × Value)) :=
  match odGet res k with
  | some (Value.dict dk) => some dk
  | _ => Option.none

/-- Heap evolution: the allocation counter grows and every address below
the old counter keeps its binding. -/
def heapLe (h h' : Heap) : Prop :=
  h.nxt ≤ h'.nxt ∧ ∀ a, a < h.nxt → memGet h'.mem a = memGet h.mem a

/-- The heap dict_mergeH 5 c6heap (href 0) (href 2) produces. -/
def c6heapResult : Heap :=
  ⟨[(6, [("x", HVal.hint 1), ("y", HVal.hint 2)]),
    (5, [("a", HVal.href 6)]),
    (4, [("x", HVal.hint 1)]),
    (0, [("a", HVal.href 1)]),
    (1, [("x", HVal.hint 1)]),
    (2, [("a", HVal.href 3)]),
    (3, [("y", HVal.hint 2)])], 7⟩

/-! Theorems.  Helper lemmas first, then one theorem per claim (with its
counterexample and witness theorems where required). -/

theorem stripL_eq_rdropWhile (l : List Char) :
    stripL l = List.rdropWhile isPyWs (l.dropWhile isPyWs) := rfl

theorem stripL_concat_ws (c : Char) (h : isPyWs c = true) (x : List Char) :
    stripL (x ++ [c]) = stripL x := by
  induction x with
  | nil => simp [stripL, List.dropWhile, h, List.rdropWhile]
  | cons a t ih =>
    by_cases ha : isPyWs a
    · simpa [stripL_eq_rdropWhile, List.dropWhile_cons, ha] using ih
    · simp only [stripL_eq_rdropWhile, List.cons_append, List.dropWhile_cons, ha,
        if_neg, Bool.not_eq_true]
      rw [← List.cons_append, List.rdropWhile_concat_pos isPyWs (a :: t) c h]

theorem my_length_dropWhile_le (p : α → Bool) (l : List α) :
    (l.dropWhile p).length ≤ l.length := by
  induction l with
  | nil => simp
  | cons a t ih =>
    rw [List.dropWhile_cons]
    split
    · simp only [List.length_cons]
      omega
    · simp

theorem dropWhile_of_rdropWhile_dropWhile (p : α → Bool) (l : List α) :
    List.dropWhile p (List.rdropWhile p (List.dropWhile p l)) =
      List.rdropWhile p (List.dropWhile p l) := by
  generalize hd : List.dropWhile p l = d
  have hdd : List.dropWhile p d = d := by
    rw [← hd]
    exact List.dropWhile_idempotent p l
  obtain ⟨t, ht⟩ := List.rdropWhile_prefix p d
  cases h1 : List.rdropWhile p d with
  | nil => simp
  | cons a l' =>
    have hr : d = a :: (l' ++ t) := by
      rw [← ht, h1, List.cons_append]
    have hpa : ¬ p a = true := by
      intro hp
      rw [hr, List.dropWhile_cons, if_pos hp] at hdd
      have hlen := my_length_dropWhile_le p (l' ++ t)
      rw [hdd] at hlen
      simp only [List.length_cons] at hlen
      omega
    simp [List.dropWhile_cons, hpa]

theorem stripL_idem (x : List Char) : stripL (stripL x) = stripL x := by
  rw [stripL_eq_rdropWhile, stripL_eq_rdropWhile,
    dropWhile_of_rdropWhile_dropWhile, List.rdropWhile_idempotent]

theorem pyStrip_strip_newline (s : String) :
    pyStrip (pyStrip s ++ "\n") = pyStrip s := by
  show String.mk (stripL (String.mk (stripL s.data) ++ "\n").data) = String.mk (stripL s.data)
  have hdata : (String.mk (stripL s.data) ++ "\n").data = stripL s.data ++ ['\n'] := rfl
  rw [hdata, stripL_concat_ws '\n' rfl, stripL_idem]

/-- C2: false as stated.  The Fallback Codec does not reproduce the
serialized subtree byte-for-byte: create_rawxml strips surrounding
whitespace and appends a newline, so for the node <foo>x</foo> the stored
xml text is "<foo>x</foo>\n", which differs from the node's serialization
"<foo>x</foo>". -/
theorem c2_roundtrip_cex :
    create_rawxml c2node =
      Value.dict [("raw", Value.dict [("xml", Value.str "<foo>x</foo>\n")])] ∧
    tostring c2node = "<foo>x</foo>" ∧
    "<foo>x</foo>\n" ≠ "<foo>x</foo>" := by
  refine ⟨rfl, rfl, ?_⟩
  decide

/-- C2 amended: for every node the Fallback Value is
{raw: {xml: strip(tostring(node)) ++ "\n"}}; the stored text equals the
serialized subtree up to surrounding whitespace (stripping the stored
text recovers the stripped serialization), so the markup itself (tag,
attributes, children) is preserved, though not byte-for-byte. -/
theorem c2_rawxml_amended (node : Elem) :
    create_rawxml node =
      Value.dict [("raw", Value.dict [("xml",
        Value.str (pyStrip (tostring node) ++ "\n"))])] ∧
    pyStrip (pyStrip (tostring node) ++ "\n") = pyStrip (tostring node) :=
  ⟨rfl, pyStrip_strip_newline (tostring node)⟩

/-- C3: false as stated.  A disabled leaf with text "false" does produce
a disabled entry (with value false); the default is not suppressed. -/
theorem c3_disabled_false_cex :
    handle_disabled c3disabledFalse = [("disabled", Value.bool false)] ∧
    ((handle_disabled c3disabledFalse).filter (fun p => p.1 == "disabled")).length = 1 :=
  ⟨rfl, rfl⟩

/-- C3 amended: handle_disabled always emits exactly one disabled entry
whose value is the boolean text == "true" ("false" gives disabled: false,
"true" gives disabled: true); the simple job's description leaf gives
description: "build it". -/
theorem c3_disabled_amended :
    (∀ e : Elem, handle_disabled e = [("disabled", Value.bool (e.text == some "true"))]) ∧
    handle_disabled c3disabledFalse = [("disabled", Value.bool false)] ∧
    handle_disabled c3disabledTrue = [("disabled", Value.bool true)] ∧
    handle_description c3desc = [("description", Value.str "build it")] :=
  ⟨fun _ => rfl, rfl, rfl, rfl⟩

/-- C7: false as stated.  The coercion policy does not hold everywhere
leaf text becomes a value: handle_description passes the text through
uncoerced, so missing text yields the None value (not the empty string)
and the text "true" yields the string "true" (not a boolean). -/
theorem c7_coercion_cex :
    handle_description c7descMissing = [("description", Value.null)] ∧
    Value.null ≠ Value.str "" ∧
    handle_description c7descTrue = [("description", Value.str "true")] ∧
    Value.str "true" ≠ Value.bool true ∧
    Value.str "true" ≠ Value.bool false := by
  refine ⟨rfl, ?_, rfl, ?_, ?_⟩ <;> intro h <;> exact Value.noConfusion h

/-- C7 amended: the missing-to-empty / "true"-"false"-to-boolean /
literal-otherwise coercion is the policy of the parameter-definition
handler (coerceSettingText, applied to every parameter setting); simple
leaf handlers such as handle_description pass raw text through, None
included. -/
theorem c7_coercion_amended :
    coerceSettingText Option.none = Value.str "" ∧
    coerceSettingText (some "true") = Value.bool true ∧
    coerceSettingText (some "false") = Value.bool false ∧
    coerceSettingText (some "make it so") = Value.str "make it so" ∧
    (∀ l settings, paramSettingsLoop l settings =
      l.foldl (fun st d =>
        odSet st (if d.tag = "defaultValue" then "default" else d.tag)
          (coerceSettingText d.text)) settings) ∧
    handle_parameters_property c7params = Except.ok
      [Value.dict [("string", Value.dict
        [("name", Value.str "DEPLOY"), ("description", Value.str ""),
         ("default", Value.bool true), ("trim", Value.bool false)])]] ∧
    handle_description c7descMissing = [("description", Value.null)] := by
  refine ⟨rfl, rfl, rfl, rfl, ?_, rfl, rfl⟩
  intro l
  induction l with
  | nil => intro settings; rfl
  | cons d rest ih => intro settings; simp [paramSettingsLoop, List.foldl_cons, ih]

/-- C4: the code is wrong where the claim (and the containment design of
the rest of the file) is right.  An artifact-copy selector class absent
from selectdict is looked up with a plain subscript (line 629), raising
KeyError - not the classified NotImplementedError - and no enclosing
except catches KeyError, so it escapes handle_builder and handle_builders
and aborts the whole translation instead of becoming a Fallback Value. -/
theorem c4_selector_keyerror :
    handle_builder 2 c4builder = Except.error (PyErr.keyError "MagicBuildSelector") ∧
    handle_builders 2 (el "builders" [] Option.none [c4builder]) =
      Except.error (PyErr.keyError "MagicBuildSelector") :=
  ⟨rfl, rfl⟩

/-- C1: false as stated.  A publishers container whose items all either
translate or fail with the classified error can still yield fewer items
than children: a recognized Slack-notifier child is deliberately skipped
(it appends nothing), so this two-child container yields one item. -/
theorem c1_publishers_skip_cex :
    c1top.children.length = 2 ∧
    handle_publishers c1top =
      Except.ok [("publishers", Value.list [create_rawxml c1unknown])] ∧
    [create_rawxml c1unknown].length = 1 := by
  refine ⟨rfl, rfl, rfl⟩

/-- C9: false as stated.  The per-metric records are collected keyed by
lower-cased metric name and deep-merged, but the emitted order is the
iteration order of a plain CPython 2 dict, not first-encounter order:
here the metrics are first encountered as [method, line] yet the emitted
list is [line, method] (slots 2 and 5 of the 8-slot hash table). -/
theorem c9_metric_order_cex :
    c9firstEncounter = ["method", "line"] ∧
    handle_publishers c9top =
      Except.ok [("publishers", Value.list [c9cobExpected])] ∧
    (c9cobExpected = Value.dict [("cobertura", Value.dict
      [("report-file", Value.str "coverage.xml"),
       ("targets", Value.list [c9lineRec, c9methodRec])])]) ∧
    (["line", "method"] : List String) ≠ ["method", "line"] := by
  refine ⟨rfl, rfl, rfl, ?_⟩
  decide

/-- C9 amended: the scattered thresholds are collected into a temporary
mapping keyed by lower-cased metric name and deep-merged field-by-field
with dict_merge, then emitted as a single list of per-metric records whose
order is the hash-table iteration order of the CPython 2 dict holding
them (not first-encounter order). -/
theorem c9_cobertura_amended :
    cobParamsLoop c9cob.children [] [] = Except.ok
      ([("report-file", Value.str "coverage.xml"), ("targets", Value.list [])],
       [("method", Value.dict [("healthy", Value.int 80), ("unhealthy", Value.int 50)]),
        ("line", Value.dict [("healthy", Value.int 90), ("unhealthy", Value.int 60)])]) ∧
    dict_merge 2 (Value.dict [("healthy", Value.int 80)])
        (Value.dict [("unhealthy", Value.int 50)]) =
      Except.ok (Value.dict [("healthy", Value.int 80), ("unhealthy", Value.int 50)]) ∧
    py2DictOrder ["method", "line"] = some ["line", "method"] ∧
    coberturaBody c9cob = Except.ok c9cobExpected :=
  ⟨rfl, rfl, rfl, rfl⟩

theorem odGet_odSet_self (res : List (String × Value)) (k : String) (v : Value) :
    odGet (odSet res k v) k = some v := by
  induction res with
  | nil => simp [odSet, odGet]
  | cons p ps ih =>
    by_cases h : p.1 = k
    · simp [odSet, odGet, h]
    · simp [odSet, odGet, h, ih]

theorem odGet_odSet_ne (res : List (String × Value)) (k k' : String) (v : Value)
    (h : k' ≠ k) : odGet (odSet res k v) k' = odGet res k' := by
  have hkk : ¬(k = k') := fun hh => h hh.symm
  induction res with
  | nil => simp only [odSet, odGet, if_neg hkk]
  | cons p ps ih =>
    obtain ⟨pk, pv⟩ := p
    by_cases hp : pk = k
    · subst hp
      have hpk' : ¬(pk = k') := hkk
      simp [odSet, odGet, hpk']
    · by_cases hpk' : pk = k'
      · simp [odSet, odGet, hp, hpk', h]
      · simp [odSet, odGet, hp, hpk', ih]

theorem odGetDict_eq_some_iff (res : List (String × Value)) (k : String)
    (dk : List (String × Value)) :
    odGetDict res k = some dk ↔ odGet res k = some (Value.dict dk) := by
  unfold odGetDict
  cases h : odGet res k with
  | none => simp
  | some v => cases v <;> simp

theorem odGetDict_eq_none_iff (res : List (String × Value)) (k : String) :
    odGetDict res k = Option.none ↔ ∀ dk, odGet res k ≠ some (Value.dict dk) := by
  unfold odGetDict
  cases h : odGet res k with
  | none => simp
  | some v => cases v <;> simp

theorem dict_mergeLoop_cons (rec_ : Value → Value → Except PyErr Value)
    (res : List (String × Value)) (k : String) (v : Value) (rest : List (String × Value)) :
    dict_mergeLoop rec_ res ((k, v) :: rest) =
      (match odGetDict res k with
       | some dk =>
         (match rec_ (Value.dict dk) v with
          | Except.ok m => dict_mergeLoop rec_ (odSet res k m) rest
          | Except.error e => Except.error e)
       | Option.none => dict_mergeLoop rec_ (odSet res k v) rest) := by
  cases h : odGet res k with
  | none => simp [odGetDict, h, dict_mergeLoop]
  | some v' => cases v' <;> simp [odGetDict, h, dict_mergeLoop]

theorem dict_mergeLoop_spec (rec_ : Value → Value → Except PyErr Value)
    (bs : List (String × Value)) :
    ∀ res rs, (bs.map Prod.fst).Nodup →
    dict_mergeLoop rec_ res bs = Except.ok rs →
    ((∀ k bv dk, (k, bv) ∈ bs → odGet res k = some (Value.dict dk) →
        ∃ m, rec_ (Value.dict dk) bv = Except.ok m ∧ odGet rs k = some m) ∧
     (∀ k bv, (k, bv) ∈ bs → (∀ dk, odGet res k ≠ some (Value.dict dk)) →
        odGet rs k = some bv) ∧
     (∀ k, k ∉ bs.map Prod.fst → odGet rs k = odGet res k)) := by
  induction bs with
  | nil =>
    intro res rs _ h
    simp only [dict_mergeLoop] at h
    cases h
    refine ⟨?_, ?_, ?_⟩ <;> simp
  | cons p rest ih =>
    intro res rs hnd h
    obtain ⟨k0, v0⟩ := p
    rw [List.map_cons, List.nodup_cons] at hnd
    obtain ⟨hk0, hndr⟩ := hnd
    rw [dict_mergeLoop_cons] at h
    cases hdk : odGetDict res k0 with
    | some dk0 =>
      simp only [hdk] at h
      cases hm : rec_ (Value.dict dk0) v0 with
      | error e =>
        simp only [hm] at h
        exact Except.noConfusion h
      | ok m =>
        simp only [hm] at h
        obtain ⟨A, B, C⟩ := ih (odSet res k0 m) rs hndr h
        have hres0 : odGet res k0 = some (Value.dict dk0) :=
          (odGetDict_eq_some_iff res k0 dk0).mp hdk
        refine ⟨?_, ?_, ?_⟩
        · intro k bv dk hmem hget
          rcases List.mem_cons.mp hmem with heq | htail
          · cases heq
            rw [hres0] at hget
            injection hget with h1
            injection h1 with h2
            subst h2
            refine ⟨m, hm, ?_⟩
            rw [C k0 hk0, odGet_odSet_self]
          · have hkne : k ≠ k0 := by
              intro hkk
              subst hkk
              exact hk0 (List.mem_map.mpr ⟨(k, bv), htail, rfl⟩)
            exact A k bv dk htail (by rw [odGet_odSet_ne _ _ _ _ hkne]; exact hget)
        · intro k bv hmem hne
          rcases List.mem_cons.mp hmem with heq | htail
          · cases heq
            exact absurd hres0 (hne dk0)
          · have hkne : k ≠ k0 := by
              intro hkk
              subst hkk
              exact hk0 (List.mem_map.mpr ⟨(k, bv), htail, rfl⟩)
            exact B k bv htail (by intro dk; rw [odGet_odSet_ne _ _ _ _ hkne]; exact hne dk)
        · intro k hk
          have hkne : k ≠ k0 := by
            intro hkk; subst hkk; exact hk (by simp)
          have hkr : k ∉ rest.map Prod.fst := by
            intro hh; exact hk (List.mem_cons.mpr (Or.inr hh))
          rw [C k hkr, odGet_odSet_ne _ _ _ _ hkne]
    | none =>
      simp only [hdk] at h
      obtain ⟨A, B, C⟩ := ih (odSet res k0 v0) rs hndr h
      have hne0 : ∀ dk, odGet res k0 ≠ some (Value.dict dk) :=
        (odGetDict_eq_none_iff res k0).mp hdk
      refine ⟨?_, ?_, ?_⟩
      · intro k bv dk hmem hget
        rcases List.mem_cons.mp hmem with heq | htail
        · cases heq
          exact absurd hget (hne0 dk)
        · have hkne : k ≠ k0 := by
            intro hkk
            subst hkk
            exact hk0 (List.mem_map.mpr ⟨(k, bv), htail, rfl⟩)
          exact A k bv dk htail (by rw [odGet_odSet_ne _ _ _ _ hkne]; exact hget)
      · intro k bv hmem hne
        rcases List.mem_cons.mp hmem with heq | htail
        · cases heq
          rw [C k0 hk0, odGet_odSet_self]
        · have hkne : k ≠ k0 := by
            intro hkk
            subst hkk
            exact hk0 (List.mem_map.mpr ⟨(k, bv), htail, rfl⟩)
          exact B k bv htail (by intro dk; rw [odGet_odSet_ne _ _ _ _ hkne]; exact hne dk)
      · intro k hk
        have hkne : k ≠ k0 := by
          intro hkk; subst hkk; exact hk (by simp)
        have hkr : k ∉ rest.map Prod.fst := by
          intro hh; exact hk (List.mem_cons.mpr (Or.inr hh))
        rw [C k hkr, odGet_odSet_ne _ _ _ _ hkne]

/-- C5 confirmed: dict_merge returns the overlay when the overlay is not a
dict; when both are dicts it merges key-wise - merging recursively where
the base holds a nested dict at the key, letting the overlay's value
replace the base's otherwise, and keeping base entries for keys absent
from the overlay - and the two concrete examples of the specification
hold (fuel is the embedding's recursion counter; a successful run fixes
it). -/
theorem c5_dict_merge :
    (∀ (f : Nat) (a b : Value), (∀ l, b ≠ Value.dict l) →
      dict_merge (Nat.succ f) a b = Except.ok b) ∧
    (∀ (f : Nat) (az bs rs : List (String × Value)), (bs.map Prod.fst).Nodup →
      dict_merge f (Value.dict az) (Value.dict bs) = Except.ok (Value.dict rs) →
      ((∀ k bv dk, (k, bv) ∈ bs → odGet az k = some (Value.dict dk) →
          ∃ m, dict_merge (f - 1) (Value.dict dk) bv = Except.ok m ∧ odGet rs k = some m) ∧
       (∀ k bv, (k, bv) ∈ bs → (∀ dk, odGet az k ≠ some (Value.dict dk)) →
          odGet rs k = some bv) ∧
       (∀ k, k ∉ bs.map Prod.fst → odGet rs k = odGet az k))) ∧
    dict_merge 3 (Value.dict [("a", Value.dict [("x", Value.int 1)])])
        (Value.dict [("a", Value.dict [("y", Value.int 2)])]) =
      Except.ok (Value.dict [("a", Value.dict [("x", Value.int 1), ("y", Value.int 2)])]) ∧
    dict_merge 3 (Value.dict [("a", Value.int 1)])
        (Value.dict [("a", Value.dict [("y", Value.int 2)])]) =
      Except.ok (Value.dict [("a", Value.dict [("y", Value.int 2)])]) := by
  refine ⟨?_, ?_, rfl, rfl⟩
  · intro f a b hb
    show dict_mergeStep (dict_merge f) a b = Except.ok b
    cases b with
    | dict l => exact absurd rfl (hb l)
    | str sv => rfl
    | bool bv => rfl
    | int iv => rfl
    | null => rfl
    | list lv => rfl
  · intro f az bs rs hnd h
    cases f with
    | zero => exact Except.noConfusion h
    | succ f' =>
      have hstep : (match dict_mergeLoop (dict_merge f') az bs with
          | Except.ok r => Except.ok (Value.dict r)
          | Except.error e => Except.error e) = Except.ok (Value.dict rs) := h
      cases hloop : dict_mergeLoop (dict_merge f') az bs with
      | error e =>
        rw [hloop] at hstep
        exact Except.noConfusion hstep
      | ok r =>
        rw [hloop] at hstep
        injection hstep with h1
        injection h1 with h2
        subst h2
        have := dict_mergeLoop_spec (dict_merge f') bs az r hnd hloop
        simpa using this

/-- Witness for c5_dict_merge at the specification's first example. -/
theorem c5_dict_merge_witness :
    ∃ m, dict_merge 1 (Value.dict [("x", Value.int 1)]) (Value.dict [("y", Value.int 2)]) =
        Except.ok m ∧
      odGet [("a", Value.dict [("x", Value.int 1), ("y", Value.int 2)])] "a" = some m := by
  have h := c5_dict_merge.2.1 2
    [("a", Value.dict [("x", Value.int 1)])]
    [("a", Value.dict [("y", Value.int 2)])]
    [("a", Value.dict [("x", Value.int 1), ("y", Value.int 2)])]
    (by simp) rfl
  exact h.1 "a" (Value.dict [("y", Value.int 2)]) [("x", Value.int 1)] (by simp) rfl

/-- C8 confirmed: a source-control node whose class discriminator is the
no-op NullSCM type maps to absence (None, not an empty record), and the
multi-SCM wrapper around two git definitions yields two independently
normalized git records, each the very record the single definition
produces on its own. -/
theorem c8_scm_multi :
    (∀ (f : Nat) (top : Elem), findAttr top.attrib "class" = some "hudson.scm.NullSCM" →
      handle_scm (Nat.succ f) top = Except.ok Option.none) ∧
    handle_scm 2 c8multi = Except.ok (some [("scm",
      Value.list [c8gitRecord "git://a", c8gitRecord "git://b"])]) ∧
    handle_scm 1 (c8gitDef "git://a") =
      Except.ok (some [("scm", Value.list [c8gitRecord "git://a"])]) ∧
    handle_scm 1 (c8gitDef "git://b") =
      Except.ok (some [("scm", Value.list [c8gitRecord "git://b"])]) := by
  refine ⟨?_, rfl, rfl, rfl⟩
  intro f top h
  show handle_scmStep (handle_scm f) top = Except.ok Option.none
  unfold handle_scmStep
  rw [h]
  simp

/-- Witness for c8_scm_multi: the NullSCM clause at a concrete node. -/
theorem c8_scm_witness : handle_scm 1 c8null = Except.ok Option.none :=
  c8_scm_multi.1 0 c8null rfl

theorem odHas_odSet_self (od : List (String × Value)) (k : String) (v : Value) :
    odHas (odSet od k v) k = true := by
  simp [odHas, odGet_odSet_self]

theorem odHas_odSet_other (od : List (String × Value)) (k k' : String) (v : Value)
    (h : k' ≠ k) : odHas (odSet od k v) k' = odHas od k' := by
  simp [odHas, odGet_odSet_ne _ _ _ _ h]



theorem scmDefaults_keys (git : List (String × Value)) :
    odHas (scmDefaults git) "wipe-workspace" = true ∧
    odHas (scmDefaults git) "skip-tag" = true := by
  have hne : ("wipe-workspace" : String) ≠ "skip-tag" := by decide
  have A : ∀ g1 : List (String × Value), odHas g1 "wipe-workspace" = true →
      odHas (if odHas g1 "skip-tag" then g1
        else odSet g1 "skip-tag" (Value.bool true)) "wipe-workspace" = true ∧
      odHas (if odHas g1 "skip-tag" then g1
        else odSet g1 "skip-tag" (Value.bool true)) "skip-tag" = true := by
    intro g1 h1
    cases hs : odHas g1 "skip-tag" with
    | true => simp [hs, h1]
    | false => simp [hs, odHas_odSet_self, odHas_odSet_other _ _ _ _ hne, h1]
  unfold scmDefaults
  cases hw : odHas git "wipe-workspace" with
  | true => simpa [hw] using A git hw
  | false =>
    have hA := A (odSet git "wipe-workspace" (Value.bool false)) (odHas_odSet_self _ _ _)
    simpa [hw] using hA

/-- Every item scmTryBody returns that is a one-key git record carries
both compensating-default keys. -/
theorem scmTryBody_git_keys (top : Elem) (items : List Value)
    (h : scmTryBody top = Except.ok items) :
    ∀ v ∈ items, ∀ god, v = Value.dict [("git", Value.dict god)] →
      odHas god "wipe-workspace" = true ∧ odHas god "skip-tag" = true := by
  unfold scmTryBody at h
  cases hg : gitLoop top.children [] with
  | ok git =>
    rw [hg] at h
    injection h with h1
    subst h1
    intro v hv god hvg
    simp only [List.mem_singleton] at hv
    subst hv
    injection hvg with h2
    injection h2 with h3 h4
    have h5 : Value.dict (scmDefaults git) = Value.dict god := congrArg Prod.snd h3
    injection h5 with h6
    rw [← h6]
    exact scmDefaults_keys git
  | error e =>
    rw [hg] at h
    cases e with
    | notImplemented m =>
      injection h with h1
      subst h1
      intro v hv god hvg
      simp only [insert_rawxml, List.nil_append, List.mem_singleton] at hv
      subst hv
      simp [create_rawxml] at hvg
    | keyError m => exact Except.noConfusion h
    | typeError m => exact Except.noConfusion h
    | valueError m => exact Except.noConfusion h
    | attributeError m => exact Except.noConfusion h
    | nameError m => exact Except.noConfusion h
    | indexError m => exact Except.noConfusion h
    | fuel => exact Except.noConfusion h

/-- Items produced by the multi-scm loop all satisfy what the recursive
handler guarantees of the head item of its scm list. -/
theorem multiLoop_prop (P : Value → Prop)
    (rec_ : Elem → Except PyErr (Option (List (String × Value))))
    (Hrec : ∀ top entries, rec_ top = Except.ok (some entries) →
      ∃ items, entries = [("scm", Value.list items)] ∧ ∀ v ∈ items, P v) :
    ∀ cs scms, multiLoop rec_ cs = Except.ok scms → ∀ v ∈ scms, P v := by
  intro cs
  induction cs with
  | nil =>
    intro scms h v hv
    simp only [multiLoop] at h
    cases h
    simp at hv
  | cons scm rest ih =>
    intro scms h v hv
    rw [multiLoop] at h
    cases hr : rec_ scm with
    | error e =>
      simp only [hr] at h
      exact Except.noConfusion h
    | ok r =>
      simp only [hr] at h
      cases hx : multiExtract r with
      | error e =>
        simp only [hx] at h
        exact Except.noConfusion h
      | ok it =>
        simp only [hx] at h
        cases hrest : multiLoop rec_ rest with
        | error e =>
          simp only [hrest] at h
          exact Except.noConfusion h
        | ok scms' =>
          simp only [hrest] at h
          injection h with h1
          subst h1
          rcases List.mem_cons.mp hv with hveq | hvtail
          · subst hveq
            cases r with
            | none => simp [multiExtract] at hx
            | some entries =>
              obtain ⟨items, hei, hp⟩ := Hrec scm entries hr
              subst hei
              cases items with
              | nil => simp [multiExtract] at hx
              | cons it0 its =>
                simp only [multiExtract] at hx
                injection hx with h2
                rw [← h2]
                exact hp it0 (List.mem_cons_self it0 its)
          · exact ih scms' hrest v hvtail

/-- C10 confirmed: whenever handle_scm succeeds with entries, those are a
single scm entry holding a list of items, and every single-key git record
among the items (the normalized, non-fallback case, at any multi-scm
depth) contains both a wipe-workspace and a skip-tag entry; on a git node
the source tree leaves undetermined they are false and true respectively
and still emitted. -/
theorem c10_git_defaults :
    (∀ (f : Nat) (top : Elem) (entries : List (String × Value)),
      handle_scm f top = Except.ok (some entries) →
      ∃ items, entries = [("scm", Value.list items)] ∧
        ∀ v ∈ items, ∀ god, v = Value.dict [("git", Value.dict god)] →
          odHas god "wipe-workspace" = true ∧ odHas god "skip-tag" = true) ∧
    handle_scm 1 c10minimalGit = Except.ok (some [("scm", Value.list
      [Value.dict [("git", Value.dict
        [("wipe-workspace", Value.bool false), ("skip-tag", Value.bool true)])]])]) := by
  refine ⟨?_, rfl⟩
  intro f
  induction f with
  | zero =>
    intro top entries h
    exact Except.noConfusion h
  | succ f ih =>
    intro top entries h
    have hstep : handle_scmStep (handle_scm f) top = Except.ok (some entries) := h
    unfold handle_scmStep at hstep
    by_cases h1 : findAttr top.attrib "class" = some "hudson.scm.NullSCM"
    · rw [if_pos h1] at hstep
      injection hstep with h2
      exact Option.noConfusion h2
    · rw [if_neg h1] at hstep
      by_cases h2 : findAttr top.attrib "class" =
          some "org.jenkinsci.plugins.multiplescms.MultiSCM"
      · rw [if_pos h2] at hstep
        cases hch : top.children with
        | nil =>
          simp only [hch] at hstep
          exact Except.noConfusion hstep
        | cons c0 cs =>
          simp only [hch] at hstep
          cases hml : multiLoop (handle_scm f) c0.children with
          | error e =>
            simp only [hml] at hstep
            exact Except.noConfusion hstep
          | ok scms =>
            simp only [hml] at hstep
            injection hstep with h3
            injection h3 with h4
            refine ⟨scms, h4.symm, ?_⟩
            exact multiLoop_prop _ (handle_scm f) ih c0.children scms hml
      · rw [if_neg h2] at hstep
        have hpath : scmGitPath top = Except.ok (some entries) := by
          by_cases h3 : top.tag = "hudson.plugins.git.GitSCM"
          · rw [if_pos h3] at hstep
            exact hstep
          · rw [if_neg h3] at hstep
            cases hga : getAttr top "class" with
            | error e =>
              simp only [hga] at hstep
              exact Except.noConfusion hstep
            | ok c =>
              simp only [hga] at hstep
              by_cases h4 : c ≠ "hudson.plugins.git.GitSCM"
              · rw [if_pos h4] at hstep
                exact Except.noConfusion hstep
              · rw [if_neg h4] at hstep
                exact hstep
        unfold scmGitPath at hpath
        cases hb : scmTryBody top with
        | error e =>
          simp only [hb] at hpath
          exact Except.noConfusion hpath
        | ok scm =>
          simp only [hb] at hpath
          injection hpath with h5
          injection h5 with h6
          refine ⟨scm, h6.symm, ?_⟩
          exact scmTryBody_git_keys top scm hb

/-- Witness for c10_git_defaults at the minimal git scm node. -/
theorem c10_git_defaults_witness :
    ∃ items, ([("scm", Value.list [Value.dict [("git", Value.dict
        [("wipe-workspace", Value.bool false), ("skip-tag", Value.bool true)])]])] :
        List (String × Value)) = [("scm", Value.list items)] ∧
      ∀ v ∈ items, ∀ god, v = Value.dict [("git", Value.dict god)] →
        odHas god "wipe-workspace" = true ∧ odHas god "skip-tag" = true :=
  c10_git_defaults.1 1 c10minimalGit _ rfl

/-- The except clause of handle_builder catches every classified failure,
so the classified failure never escapes it. -/
theorem handle_builder_no_nie (f : Nat) (b : Elem) (m : String) :
    handle_builder f b ≠ Except.error (PyErr.notImplemented m) := by
  cases f with
  | zero =>
    intro h
    injection h with h1
    exact PyErr.noConfusion h1
  | succ f =>
    intro h
    have hh : (match handle_builderBody (handle_builder f) b with
        | Except.ok v => Except.ok v
        | Except.error (PyErr.notImplemented _, b') => Except.ok (create_rawxml b')
        | Except.error (e, _) => Except.error e) =
        Except.error (PyErr.notImplemented m) := h
    cases hb : handle_builderBody (handle_builder f) b with
    | ok v =>
      simp only [hb] at hh
      exact Except.noConfusion hh
    | error p =>
      obtain ⟨e, b'⟩ := p
      cases e <;> simp only [hb] at hh <;>
        first
        | exact Except.noConfusion hh
        | (injection hh with h1; exact PyErr.noConfusion h1)

theorem handle_buildwrapper_no_nie (w : Elem) (m : String) :
    handle_buildwrapper w ≠ Except.error (PyErr.notImplemented m) := by
  intro h
  have hh : (match handle_buildwrapperBody w with
      | Except.error (PyErr.notImplemented _) => Except.ok (create_rawxml w)
      | r => r) = Except.error (PyErr.notImplemented m) := h
  cases hb : handle_buildwrapperBody w with
  | ok v =>
    simp only [hb] at hh
    exact Except.noConfusion hh
  | error e =>
    cases e <;> simp only [hb] at hh <;>
      first
      | exact Except.noConfusion hh
      | (injection hh with h1; exact PyErr.noConfusion h1)

theorem buildersLoop_no_nie (f : Nat) (cs : List Elem) (m : String) :
    buildersLoop f cs ≠ Except.error (PyErr.notImplemented m) := by
  induction cs with
  | nil => intro h; exact Except.noConfusion h
  | cons c rest ih =>
    intro h
    have hh : (match handle_builder f c with
        | Except.ok v =>
          (match buildersLoop f rest with
           | Except.ok vs => Except.ok (v :: vs)
           | Except.error e => Except.error e)
        | Except.error e => Except.error e) =
        Except.error (PyErr.notImplemented m) := h
    cases hb : handle_builder f c with
    | error e =>
      simp only [hb] at hh
      injection hh with h1
      exact handle_builder_no_nie f c m (by rw [hb, h1])
    | ok v =>
      simp only [hb] at hh
      cases hrest : buildersLoop f rest with
      | error e =>
        simp only [hrest] at hh
        injection hh with h1
        exact ih (by rw [hrest, h1])
      | ok vs =>
        simp only [hrest] at hh
        exact Except.noConfusion hh

theorem wrappersLoop_no_nie (cs : List Elem) (m : String) :
    wrappersLoop cs ≠ Except.error (PyErr.notImplemented m) := by
  induction cs with
  | nil => intro h; exact Except.noConfusion h
  | cons c rest ih =>
    intro h
    have hh : (match handle_buildwrapper c with
        | Except.ok v =>
          (match wrappersLoop rest with
           | Except.ok vs => Except.ok (v :: vs)
           | Except.error e => Except.error e)
        | Except.error e => Except.error e) =
        Except.error (PyErr.notImplemented m) := h
    cases hb : handle_buildwrapper c with
    | error e =>
      simp only [hb] at hh
      injection hh with h1
      exact handle_buildwrapper_no_nie c m (by rw [hb, h1])
    | ok v =>
      simp only [hb] at hh
      cases hrest : wrappersLoop rest with
      | error e =>
        simp only [hrest] at hh
        injection hh with h1
        exact ih (by rw [hrest, h1])
      | ok vs =>
        simp only [hrest] at hh
        exact Except.noConfusion hh

theorem item_slack_none (c : Elem)
    (h : c.tag = "jenkins.plugins.slack.SlackNotifier") :
    handle_publishers_item c = Except.ok Option.none := by
  unfold handle_publishers_item
  rw [if_pos h]

theorem item_none_slack (c : Elem)
    (h : handle_publishers_item c = Except.ok Option.none) :
    c.tag = "jenkins.plugins.slack.SlackNotifier" := by
  by_contra hne
  unfold handle_publishers_item at h
  rw [if_neg hne] at h
  cases hd : handle_publishers_dispatch c with
  | ok v =>
    simp only [hd] at h
    injection h with h1
    exact Option.noConfusion h1
  | error e =>
    simp only [hd] at h
    exact Except.noConfusion h

theorem pubsLoop_no_nie (cs : List Elem) (m : String) :
    pubsLoop cs ≠ Except.error (PyErr.notImplemented m) := by
  induction cs with
  | nil => intro h; exact Except.noConfusion h
  | cons c rest ih =>
    intro h
    have hh : (match handle_publishers_item c with
        | Except.error (PyErr.notImplemented _) =>
          (match pubsLoop rest with
           | Except.ok vs => Except.ok (create_rawxml c :: vs)
           | Except.error e => Except.error e)
        | Except.error e => Except.error e
        | Except.ok Option.none => pubsLoop rest
        | Except.ok (some v) =>
          (match pubsLoop rest with
           | Except.ok vs => Except.ok (v :: vs)
           | Except.error e => Except.error e)) =
        Except.error (PyErr.notImplemented m) := h
    cases hi : handle_publishers_item c with
    | error e =>
      cases e with
      | notImplemented m' =>
        simp only [hi] at hh
        cases hrest : pubsLoop rest with
        | error e' =>
          simp only [hrest] at hh
          injection hh with h1
          exact ih (by rw [hrest, h1])
        | ok vs =>
          simp only [hrest] at hh
          exact Except.noConfusion hh
      | keyError m' => simp only [hi] at hh; injection hh with h1; exact PyErr.noConfusion h1
      | typeError m' => simp only [hi] at hh; injection hh with h1; exact PyErr.noConfusion h1
      | valueError m' => simp only [hi] at hh; injection hh with h1; exact PyErr.noConfusion h1
      | attributeError m' => simp only [hi] at hh; injection hh with h1; exact PyErr.noConfusion h1
      | nameError m' => simp only [hi] at hh; injection hh with h1; exact PyErr.noConfusion h1
      | indexError m' => simp only [hi] at hh; injection hh with h1; exact PyErr.noConfusion h1
      | fuel => simp only [hi] at hh; injection hh with h1; exact PyErr.noConfusion h1
    | ok o =>
      cases o with
      | none =>
        simp only [hi] at hh
        exact ih hh
      | some v =>
        simp only [hi] at hh
        cases hrest : pubsLoop rest with
        | error e' =>
          simp only [hrest] at hh
          injection hh with h1
          exact ih (by rw [hrest, h1])
        | ok vs =>
          simp only [hrest] at hh
          exact Except.noConfusion hh

theorem buildersLoop_forall2 (f : Nat) (cs : List Elem) :
    ∀ vs, buildersLoop f cs = Except.ok vs →
    List.Forall₂ (fun c v => handle_builder f c = Except.ok v) cs vs := by
  induction cs with
  | nil =>
    intro vs h
    injection h with h1
    subst h1
    exact List.Forall₂.nil
  | cons c rest ih =>
    intro vs h
    have hh : (match handle_builder f c with
        | Except.ok v =>
          (match buildersLoop f rest with
           | Except.ok vs => Except.ok (v :: vs)
           | Except.error e => Except.error e)
        | Except.error e => Except.error e) = Except.ok vs := h
    cases hb : handle_builder f c with
    | error e =>
      simp only [hb] at hh
      exact Except.noConfusion hh
    | ok v =>
      simp only [hb] at hh
      cases hrest : buildersLoop f rest with
      | error e =>
        simp only [hrest] at hh
        exact Except.noConfusion hh
      | ok vs' =>
        simp only [hrest] at hh
        injection hh with h1
        subst h1
        exact List.Forall₂.cons hb (ih vs' hrest)

theorem wrappersLoop_forall2 (cs : List Elem) :
    ∀ vs, wrappersLoop cs = Except.ok vs →
    List.Forall₂ (fun c v => handle_buildwrapper c = Except.ok v) cs vs := by
  induction cs with
  | nil =>
    intro vs h
    injection h with h1
    subst h1
    exact List.Forall₂.nil
  | cons c rest ih =>
    intro vs h
    have hh : (match handle_buildwrapper c with
        | Except.ok v =>
          (match wrappersLoop rest with
           | Except.ok vs => Except.ok (v :: vs)
           | Except.error e => Except.error e)
        | Except.error e => Except.error e) = Except.ok vs := h
    cases hb : handle_buildwrapper c with
    | error e =>
      simp only [hb] at hh
      exact Except.noConfusion hh
    | ok v =>
      simp only [hb] at hh
      cases hrest : wrappersLoop rest with
      | error e =>
        simp only [hrest] at hh
        exact Except.noConfusion hh
      | ok vs' =>
        simp only [hrest] at hh
        injection hh with h1
        subst h1
        exact List.Forall₂.cons hb (ih vs' hrest)

theorem pubsLoop_length (cs : List Elem) :
    ∀ vs, pubsLoop cs = Except.ok vs →
    vs.length = (cs.filter
      (fun c => c.tag != "jenkins.plugins.slack.SlackNotifier")).length := by
  induction cs with
  | nil =>
    intro vs h
    injection h with h1
    subst h1
    rfl
  | cons c rest ih =>
    intro vs h
    have hh : (match handle_publishers_item c with
        | Except.error (PyErr.notImplemented _) =>
          (match pubsLoop rest with
           | Except.ok vs => Except.ok (create_rawxml c :: vs)
           | Except.error e => Except.error e)
        | Except.error e => Except.error e
        | Except.ok Option.none => pubsLoop rest
        | Except.ok (some v) =>
          (match pubsLoop rest with
           | Except.ok vs => Except.ok (v :: vs)
           | Except.error e => Except.error e)) = Except.ok vs := h
    cases hi : handle_publishers_item c with
    | error e =>
      have hcne : c.tag ≠ "jenkins.plugins.slack.SlackNotifier" := by
        intro hcs
        have h2 := item_slack_none c hcs
        rw [hi] at h2
        exact Except.noConfusion h2
      have hp : (c.tag != "jenkins.plugins.slack.SlackNotifier") = true := by
        simp [bne_iff_ne, hcne]
      cases e with
      | notImplemented m' =>
        simp only [hi] at hh
        cases hrest : pubsLoop rest with
        | error e' =>
          simp only [hrest] at hh
          exact Except.noConfusion hh
        | ok vs' =>
          simp only [hrest] at hh
          injection hh with h1
          subst h1
          simp [List.filter_cons, hp, ih vs' hrest]
      | keyError m' => simp only [hi] at hh; exact Except.noConfusion hh
      | typeError m' => simp only [hi] at hh; exact Except.noConfusion hh
      | valueError m' => simp only [hi] at hh; exact Except.noConfusion hh
      | attributeError m' => simp only [hi] at hh; exact Except.noConfusion hh
      | nameError m' => simp only [hi] at hh; exact Except.noConfusion hh
      | indexError m' => simp only [hi] at hh; exact Except.noConfusion hh
      | fuel => simp only [hi] at hh; exact Except.noConfusion hh
    | ok o =>
      cases o with
      | none =>
        have hcs := item_none_slack c hi
        have hp : (c.tag != "jenkins.plugins.slack.SlackNotifier") = false := by
          simp [hcs]
        simp only [hi] at hh
        simp [List.filter_cons, hp, ih vs hh]
      | some v =>
        have hcne : c.tag ≠ "jenkins.plugins.slack.SlackNotifier" := by
          intro hcs
          have h2 := item_slack_none c hcs
          rw [hi] at h2
          injection h2 with h3
          exact Option.noConfusion h3
        have hp : (c.tag != "jenkins.plugins.slack.SlackNotifier") = true := by
          simp [bne_iff_ne, hcne]
        simp only [hi] at hh
        cases hrest : pubsLoop rest with
        | error e' =>
          simp only [hrest] at hh
          exact Except.noConfusion hh
        | ok vs' =>
          simp only [hrest] at hh
          injection hh with h1
          subst h1
          simp [List.filter_cons, hp, ih vs' hrest]

theorem handle_builder_unknown_tag (f : Nat) (b : Elem)
    (h1 : b.tag ≠ "hudson.plugins.copyartifact.CopyArtifact")
    (h2 : b.tag ≠ "hudson.tasks.Shell")
    (h3 : b.tag ≠ "org.jenkinsci.plugins.conditionalbuildstep.singlestep.SingleConditionalBuilder")
    (h4 : b.tag ≠ "hudson.plugins.parameterizedtrigger.TriggerBuilder") :
    handle_builder (Nat.succ f) b = Except.ok (create_rawxml b) := by
  have hbody : handle_builderBody (handle_builder f) b =
      Except.error (PyErr.notImplemented ("cannot handle builder " ++ b.tag), b) := by
    unfold handle_builderBody
    rw [if_neg h1, if_neg h2, if_neg h3, if_neg h4]
  show (match handle_builderBody (handle_builder f) b with
      | Except.ok v => Except.ok v
      | Except.error (PyErr.notImplemented _, b') => Except.ok (create_rawxml b')
      | Except.error (e, _) => Except.error e) = Except.ok (create_rawxml b)
  rw [hbody]

theorem handle_buildwrapper_unknown_tag (w : Elem)
    (h1 : w.tag ≠ "EnvInjectPasswordWrapper")
    (h2 : w.tag ≠ "hudson.plugins.build__timeout.BuildTimeoutWrapper")
    (h3 : w.tag ≠ "hudson.plugins.ansicolor.AnsiColorBuildWrapper")
    (h4 : w.tag ≠ "com.cloudbees.jenkins.plugins.sshagent.SSHAgentBuildWrapper")
    (h5 : w.tag ≠ "org.jenkinsci.plugins.buildnamesetter.BuildNameSetter") :
    handle_buildwrapper w = Except.ok (create_rawxml w) := by
  have hbody : handle_buildwrapperBody w =
      Except.error (PyErr.notImplemented ("cannot handle XML " ++ w.tag)) := by
    unfold handle_buildwrapperBody
    rw [if_neg h1, if_neg h2, if_neg h3, if_neg h4, if_neg h5]
  show (match handle_buildwrapperBody w with
      | Except.error (PyErr.notImplemented _) => Except.ok (create_rawxml w)
      | r => r) = Except.ok (create_rawxml w)
  rw [hbody]

theorem handle_publishers_item_unknown_tag (c : Elem)
    (h1 : c.tag ≠ "hudson.tasks.ArtifactArchiver")
    (h2 : c.tag ≠ "hudson.plugins.descriptionsetter.DescriptionSetterPublisher")
    (h3 : c.tag ≠ "hudson.tasks.Fingerprinter")
    (h4 : c.tag ≠ "hudson.plugins.emailext.ExtendedEmailPublisher")
    (h5 : c.tag ≠ "hudson.tasks.junit.JUnitResultArchiver")
    (h6 : c.tag ≠ "hudson.plugins.parameterizedtrigger.BuildTrigger")
    (h7 : c.tag ≠ "hudson.tasks.Mailer")
    (h8 : c.tag ≠ "htmlpublisher.HtmlPublisher")
    (h9 : c.tag ≠ "hudson.plugins.cobertura.CoberturaPublisher")
    (h10 : c.tag ≠ "jenkins.plugins.slack.SlackNotifier") :
    handle_publishers_item c =
      Except.error (PyErr.notImplemented ("cannot handle XML " ++ c.tag)) := by
  have hbody : handle_publishers_dispatch c =
      Except.error (PyErr.notImplemented ("cannot handle XML " ++ c.tag)) := by
    unfold handle_publishers_dispatch
    rw [if_neg h1, if_neg h2, if_neg h3, if_neg h4, if_neg h5, if_neg h6, if_neg h7,
      if_neg h8, if_neg h9]
  unfold handle_publishers_item
  rw [if_neg h10, hbody]

/-- C1 amended: the classified unrecognized-construct failure never
escapes the builders, wrappers or publishers container handlers (nor a
single builder/wrapper handler) - a failing item becomes its Fallback
Value in place, as the unknown-tag clauses show.  Builders and wrappers
containers that succeed yield exactly one item per child, pointwise the
item of that child; a publishers container that succeeds yields one item
per child except recognized Slack-notifier children, which append
nothing, so its item count is the number of non-Slack children. -/
theorem c1_item_isolation_amended :
    (∀ (f : Nat) (b : Elem) (m : String),
      handle_builder f b ≠ Except.error (PyErr.notImplemented m)) ∧
    (∀ (w : Elem) (m : String),
      handle_buildwrapper w ≠ Except.error (PyErr.notImplemented m)) ∧
    (∀ (f : Nat) (top : Elem) (m : String),
      handle_builders f top ≠ Except.error (PyErr.notImplemented m)) ∧
    (∀ (top : Elem) (m : String),
      handle_buildwrappers top ≠ Except.error (PyErr.notImplemented m)) ∧
    (∀ (top : Elem) (m : String),
      handle_publishers top ≠ Except.error (PyErr.notImplemented m)) ∧
    (∀ (f : Nat) (top : Elem) (entries : List (String × Value)),
      handle_builders f top = Except.ok entries →
      ∃ vs, entries = [("builders", Value.list vs)] ∧
        vs.length = top.children.length ∧
        List.Forall₂ (fun c v => handle_builder f c = Except.ok v) top.children vs) ∧
    (∀ (top : Elem) (entries : List (String × Value)),
      handle_buildwrappers top = Except.ok entries →
      ∃ vs, entries = [("wrappers", Value.list vs)] ∧
        vs.length = top.children.length ∧
        List.Forall₂ (fun c v => handle_buildwrapper c = Except.ok v) top.children vs) ∧
    (∀ (top : Elem) (entries : List (String × Value)),
      handle_publishers top = Except.ok entries →
      ∃ vs, entries = [("publishers", Value.list vs)] ∧
        vs.length = (top.children.filter
          (fun c => c.tag != "jenkins.plugins.slack.SlackNotifier")).length) ∧
    (∀ (f : Nat) (b : Elem),
      b.tag ≠ "hudson.plugins.copyartifact.CopyArtifact" →
      b.tag ≠ "hudson.tasks.Shell" →
      b.tag ≠ "org.jenkinsci.plugins.conditionalbuildstep.singlestep.SingleConditionalBuilder" →
      b.tag ≠ "hudson.plugins.parameterizedtrigger.TriggerBuilder" →
      handle_builder (Nat.succ f) b = Except.ok (create_rawxml b)) ∧
    (∀ w : Elem,
      w.tag ≠ "EnvInjectPasswordWrapper" →
      w.tag ≠ "hudson.plugins.build__timeout.BuildTimeoutWrapper" →
      w.tag ≠ "hudson.plugins.ansicolor.AnsiColorBuildWrapper" →
      w.tag ≠ "com.cloudbees.jenkins.plugins.sshagent.SSHAgentBuildWrapper" →
      w.tag ≠ "org.jenkinsci.plugins.buildnamesetter.BuildNameSetter" →
      handle_buildwrapper w = Except.ok (create_rawxml w)) ∧
    (∀ c : Elem,
      c.tag ≠ "hudson.tasks.ArtifactArchiver" →
      c.tag ≠ "hudson.plugins.descriptionsetter.DescriptionSetterPublisher" →
      c.tag ≠ "hudson.tasks.Fingerprinter" →
      c.tag ≠ "hudson.plugins.emailext.ExtendedEmailPublisher" →
      c.tag ≠ "hudson.tasks.junit.JUnitResultArchiver" →
      c.tag ≠ "hudson.plugins.parameterizedtrigger.BuildTrigger" →
      c.tag ≠ "hudson.tasks.Mailer" →
      c.tag ≠ "htmlpublisher.HtmlPublisher" →
      c.tag ≠ "hudson.plugins.cobertura.CoberturaPublisher" →
      c.tag ≠ "jenkins.plugins.slack.SlackNotifier" →
      handle_publishers_item c =
        Except.error (PyErr.notImplemented ("cannot handle XML " ++ c.tag))) := by
  refine ⟨handle_builder_no_nie, handle_buildwrapper_no_nie, ?_, ?_, ?_, ?_, ?_, ?_,
    handle_builder_unknown_tag, handle_buildwrapper_unknown_tag,
    handle_publishers_item_unknown_tag⟩
  · intro f top m h
    have hh : (match buildersLoop f top.children with
        | Except.ok bs => Except.ok [("builders", Value.list bs)]
        | Except.error e => Except.error e) =
        Except.error (PyErr.notImplemented m) := h
    cases hl : buildersLoop f top.children with
    | ok bs => simp only [hl] at hh; exact Except.noConfusion hh
    | error e =>
      simp only [hl] at hh
      injection hh with h1
      exact buildersLoop_no_nie f top.children m (by rw [hl, h1])
  · intro top m h
    have hh : (match wrappersLoop top.children with
        | Except.ok ws => Except.ok [("wrappers", Value.list ws)]
        | Except.error e => Except.error e) =
        Except.error (PyErr.notImplemented m) := h
    cases hl : wrappersLoop top.children with
    | ok ws => simp only [hl] at hh; exact Except.noConfusion hh
    | error e =>
      simp only [hl] at hh
      injection hh with h1
      exact wrappersLoop_no_nie top.children m (by rw [hl, h1])
  · intro top m h
    have hh : (match pubsLoop top.children with
        | Except.ok ps => Except.ok [("publishers", Value.list ps)]
        | Except.error e => Except.error e) =
        Except.error (PyErr.notImplemented m) := h
    cases hl : pubsLoop top.children with
    | ok ps => simp only [hl] at hh; exact Except.noConfusion hh
    | error e =>
      simp only [hl] at hh
      injection hh with h1
      exact pubsLoop_no_nie top.children m (by rw [hl, h1])
  · intro f top entries h
    have hh : (match buildersLoop f top.children with
        | Except.ok bs => Except.ok [("builders", Value.list bs)]
        | Except.error e => Except.error e) = Except.ok entries := h
    cases hl : buildersLoop f top.children with
    | error e => simp only [hl] at hh; exact Except.noConfusion hh
    | ok bs =>
      simp only [hl] at hh
      injection hh with h1
      have hf := buildersLoop_forall2 f top.children bs hl
      exact ⟨bs, h1.symm, hf.length_eq.symm, hf⟩
  · intro top entries h
    have hh : (match wrappersLoop top.children with
        | Except.ok ws => Except.ok [("wrappers", Value.list ws)]
        | Except.error e => Except.error e) = Except.ok entries := h
    cases hl : wrappersLoop top.children with
    | error e => simp only [hl] at hh; exact Except.noConfusion hh
    | ok ws =>
      simp only [hl] at hh
      injection hh with h1
      have hf := wrappersLoop_forall2 top.children ws hl
      exact ⟨ws, h1.symm, hf.length_eq.symm, hf⟩
  · intro top entries h
    have hh : (match pubsLoop top.children with
        | Except.ok ps => Except.ok [("publishers", Value.list ps)]
        | Except.error e => Except.error e) = Except.ok entries := h
    cases hl : pubsLoop top.children with
    | error e => simp only [hl] at hh; exact Except.noConfusion hh
    | ok ps =>
      simp only [hl] at hh
      injection hh with h1
      exact ⟨ps, h1.symm, pubsLoop_length top.children ps hl⟩

/-- Witness for c1_item_isolation_amended: the builders clause at a
two-child container whose second child is unrecognized. -/
theorem c1_item_isolation_witness :
    ∃ vs, ([("builders", Value.list
        [Value.dict [("shell", Value.str "make")], create_rawxml c1wunknownBuilder])] :
        List (String × Value)) = [("builders", Value.list vs)] ∧
      vs.length = c1wbuilders.children.length ∧
      List.Forall₂ (fun c v => handle_builder 1 c = Except.ok v) c1wbuilders.children vs :=
  c1_item_isolation_amended.2.2.2.2.2.1 1 c1wbuilders _ rfl

theorem heapLe_refl (h : Heap) : heapLe h h :=
  ⟨le_refl _, fun _ _ => rfl⟩

theorem heapLe_trans {h1 h2 h3 : Heap} (a : heapLe h1 h2) (b : heapLe h2 h3) :
    heapLe h1 h3 :=
  ⟨le_trans a.1 b.1, fun x hx => (b.2 x (lt_of_lt_of_le hx a.1)).trans (a.2 x hx)⟩

theorem memGet_some_mem (mem : List (Nat × HDict)) (a : Nat) (d : HDict) :
    memGet mem a = some d → (a, d) ∈ mem := by
  induction mem with
  | nil => intro h; exact Option.noConfusion h
  | cons p ps ih =>
    intro h
    obtain ⟨pa, pd⟩ := p
    by_cases hp : pa = a
    · subst hp
      simp only [memGet, if_pos rfl] at h
      injection h with h1
      subst h1
      exact List.mem_cons_self _ _
    · simp only [memGet, if_neg hp] at h
      exact List.mem_cons.mpr (Or.inr (ih h))

theorem memGet_memSet_ne (mem : List (Nat × HDict)) (r : Nat) (d : HDict)
    (a : Nat) (h : a ≠ r) : memGet (memSet mem r d) a = memGet mem a := by
  have hra : ¬(r = a) := fun hh => h hh.symm
  induction mem with
  | nil => rfl
  | cons p ps ih =>
    obtain ⟨pa, pd⟩ := p
    by_cases hp : pa = r
    · subst hp
      simp [memSet, memGet, hra]
    · by_cases hpa : pa = a
      · simp [memSet, hp, memGet, hpa, h]
      · simp [memSet, hp, memGet, hpa, ih]

theorem memSet_lt (mem : List (Nat × HDict)) (r : Nat) (d : HDict) (n : Nat)
    (hwf : ∀ p ∈ mem, p.1 < n) : ∀ p ∈ memSet mem r d, p.1 < n := by
  induction mem with
  | nil => intro p hp; simp [memSet] at hp
  | cons q qs ih =>
    intro p hp
    obtain ⟨qa, qd⟩ := q
    by_cases hq : qa = r
    · subst hq
      simp only [memSet, if_pos rfl] at hp
      rcases List.mem_cons.mp hp with heq | htail
      · subst heq
        exact hwf (qa, qd) (List.mem_cons_self _ _)
      · exact hwf p (List.mem_cons.mpr (Or.inr htail))
    · simp only [memSet, if_neg hq] at hp
      rcases List.mem_cons.mp hp with heq | htail
      · subst heq
        exact hwf (qa, qd) (List.mem_cons_self _ _)
      · exact ih (fun x hx => hwf x (List.mem_cons.mpr (Or.inr hx))) p htail

theorem halloc_pres (h : Heap) (d : HDict) (hwf : HeapWF h) :
    heapLe h (halloc h d).1 ∧ HeapWF (halloc h d).1 ∧ (halloc h d).2 = h.nxt := by
  refine ⟨⟨Nat.le_succ _, ?_⟩, ?_, rfl⟩
  · intro a ha
    show memGet ((h.nxt, d) :: h.mem) a = memGet h.mem a
    simp only [memGet]
    rw [if_neg (fun hh : h.nxt = a => absurd (hh ▸ ha) (lt_irrefl _))]
  · intro p hp
    rcases List.mem_cons.mp hp with heq | htail
    · subst heq
      exact Nat.lt_succ_self _
    · exact Nat.lt_succ_of_lt (hwf p htail)

theorem dcEntries_pres (dcrec : Heap → HVal → Option (Heap × HVal))
    (Hdc : ∀ h v h' v', HeapWF h → dcrec h v = some (h', v') → heapLe h h' ∧ HeapWF h') :
    ∀ (d : HDict) (h h' : Heap) (d' : HDict), HeapWF h →
      deepcopyStep.deepcopyEntries dcrec h d = some (h', d') →
      heapLe h h' ∧ HeapWF h' := by
  intro d
  induction d with
  | nil =>
    intro h h' d' hwf hh
    simp only [deepcopyStep.deepcopyEntries] at hh
    injection hh with h1
    cases h1
    exact ⟨heapLe_refl h, hwf⟩
  | cons p rest ih =>
    intro h h' d' hwf hh
    obtain ⟨k, v⟩ := p
    simp only [deepcopyStep.deepcopyEntries] at hh
    cases hv : dcrec h v with
    | none =>
      simp only [hv] at hh
      exact Option.noConfusion hh
    | some pr =>
      obtain ⟨h1, v'⟩ := pr
      simp only [hv] at hh
      cases hrest : deepcopyStep.deepcopyEntries dcrec h1 rest with
      | none =>
        simp only [hrest] at hh
        exact Option.noConfusion hh
      | some pr2 =>
        obtain ⟨h2, rest'⟩ := pr2
        simp only [hrest] at hh
        injection hh with h1eq
        injection h1eq with heq1 heq2
        subst heq1
        obtain ⟨hle1, hwf1⟩ := Hdc h v h1 v' hwf hv
        obtain ⟨hle2, hwf2⟩ := ih h1 h2 rest' hwf1 hrest
        exact ⟨heapLe_trans hle1 hle2, hwf2⟩

theorem dcStep_pres (dcrec : Heap → HVal → Option (Heap × HVal))
    (Hdc : ∀ h v h' v', HeapWF h → dcrec h v = some (h', v') → heapLe h h' ∧ HeapWF h') :
    ∀ h v h' v', HeapWF h → deepcopyStep dcrec h v = some (h', v') →
      heapLe h h' ∧ HeapWF h' := by
  intro h v h' v' hwf hh
  cases v with
  | hint i =>
    simp only [deepcopyStep] at hh
    injection hh with h1
    cases h1
    exact ⟨heapLe_refl h, hwf⟩
  | hstr s =>
    simp only [deepcopyStep] at hh
    injection hh with h1
    cases h1
    exact ⟨heapLe_refl h, hwf⟩
  | href a =>
    simp only [deepcopyStep] at hh
    cases hg : memGet h.mem a with
    | none =>
      simp only [hg] at hh
      exact Option.noConfusion hh
    | some d =>
      simp only [hg] at hh
      cases hde : deepcopyStep.deepcopyEntries dcrec h d with
      | none =>
        simp only [hde] at hh
        exact Option.noConfusion hh
      | some pr =>
        obtain ⟨h1, d'⟩ := pr
        simp only [hde] at hh
        injection hh with h1eq
        injection h1eq with heq1 heq2
        subst heq1
        obtain ⟨hle1, hwf1⟩ := dcEntries_pres dcrec Hdc d h h1 d' hwf hde
        obtain ⟨hle2, hwf2, _⟩ := halloc_pres h1 d' hwf1
        exact ⟨heapLe_trans hle1 hle2, hwf2⟩

theorem deepcopyH_pres : ∀ (f : Nat) (h : Heap) (v : HVal) (h' : Heap) (v' : HVal),
    HeapWF h → deepcopyH f h v = some (h', v') → heapLe h h' ∧ HeapWF h' := by
  intro f
  induction f with
  | zero => intro h v h' v' _ hh; exact Option.noConfusion hh
  | succ f ih => exact dcStep_pres (deepcopyH f) ih

theorem mergeItems_pres (rec_ : Heap → HVal → HVal → Option (Heap × HVal))
    (dc : Heap → HVal → Option (Heap × HVal))
    (Hrec : ∀ h a b h' r, HeapWF h → rec_ h a b = some (h', r) → heapLe h h' ∧ HeapWF h')
    (Hdc : ∀ h v h' v', HeapWF h → dc h v = some (h', v') → heapLe h h' ∧ HeapWF h') :
    ∀ (items : HDict) (h : Heap) (r : Nat) (h' : Heap), HeapWF h → r < h.nxt →
      dict_mergeItemsH rec_ dc h r items = some h' →
      h.nxt ≤ h'.nxt ∧ HeapWF h' ∧
      ∀ a, a < h.nxt → a ≠ r → memGet h'.mem a = memGet h.mem a := by
  intro items
  induction items with
  | nil =>
    intro h r h' hwf _ hh
    simp only [dict_mergeItemsH] at hh
    injection hh with h1
    subst h1
    exact ⟨le_refl _, hwf, fun _ _ _ => rfl⟩
  | cons p rest ih =>
    intro h r h' hwf hr hh
    obtain ⟨k, v⟩ := p
    simp only [dict_mergeItemsH] at hh
    cases hcur : memGet h.mem r with
    | none =>
      simp only [hcur] at hh
      exact Option.noConfusion hh
    | some cur =>
      simp only [hcur] at hh
      have tail : ∀ (h1 : Heap) (cur1 : HDict) (x : HVal), heapLe h h1 → HeapWF h1 →
          dict_mergeItemsH rec_ dc ⟨memSet h1.mem r (hOdSet cur1 k x), h1.nxt⟩ r rest =
            some h' →
          h.nxt ≤ h'.nxt ∧ HeapWF h' ∧
          ∀ a, a < h.nxt → a ≠ r → memGet h'.mem a = memGet h.mem a := by
        intro h1 cur1 x hle1 hwf1 hrest
        have hwf2 : HeapWF (⟨memSet h1.mem r (hOdSet cur1 k x), h1.nxt⟩ : Heap) := by
          intro q hq
          exact memSet_lt h1.mem r (hOdSet cur1 k x) h1.nxt hwf1 q hq
        have hr2 : r < (⟨memSet h1.mem r (hOdSet cur1 k x), h1.nxt⟩ : Heap).nxt :=
          lt_of_lt_of_le hr hle1.1
        obtain ⟨hn3, hwf3, hpres3⟩ := ih _ r h' hwf2 hr2 hrest
        refine ⟨le_trans (le_trans hle1.1 (le_refl _)) hn3, hwf3, ?_⟩
        intro a ha hane
        have ha2 : a < h1.nxt := lt_of_lt_of_le ha hle1.1
        rw [hpres3 a ha2 hane]
        show memGet (memSet h1.mem r (hOdSet cur1 k x)) a = memGet h.mem a
        rw [memGet_memSet_ne h1.mem r _ a hane, hle1.2 a ha]
      cases hog : hOdGet cur k with
      | some rv =>
        simp only [hog] at hh
        cases hdd : isHDict h rv with
        | true =>
          rw [hdd, if_pos rfl] at hh
          cases hm : rec_ h rv v with
          | none =>
            simp only [hm] at hh
            exact Option.noConfusion hh
          | some pr =>
            obtain ⟨h1, m⟩ := pr
            simp only [hm] at hh
            cases hc1 : memGet h1.mem r with
            | none =>
              simp only [hc1] at hh
              exact Option.noConfusion hh
            | some cur1 =>
              simp only [hc1] at hh
              obtain ⟨hle1, hwf1⟩ := Hrec h rv v h1 m hwf hm
              exact tail h1 cur1 m hle1 hwf1 hh
        | false =>
          rw [hdd] at hh
          rw [if_neg (by decide : ¬(false = true))] at hh
          cases hm : dc h v with
          | none =>
            simp only [hm] at hh
            exact Option.noConfusion hh
          | some pr =>
            obtain ⟨h1, v'⟩ := pr
            simp only [hm] at hh
            cases hc1 : memGet h1.mem r with
            | none =>
              simp only [hc1] at hh
              exact Option.noConfusion hh
            | some cur1 =>
              simp only [hc1] at hh
              obtain ⟨hle1, hwf1⟩ := Hdc h v h1 v' hwf hm
              exact tail h1 cur1 v' hle1 hwf1 hh
      | none =>
        simp only [hog] at hh
        cases hm : dc h v with
        | none =>
          simp only [hm] at hh
          exact Option.noConfusion hh
        | some pr =>
          obtain ⟨h1, v'⟩ := pr
          simp only [hm] at hh
          cases hc1 : memGet h1.mem r with
          | none =>
            simp only [hc1] at hh
            exact Option.noConfusion hh
          | some cur1 =>
            simp only [hc1] at hh
            obtain ⟨hle1, hwf1⟩ := Hdc h v h1 v' hwf hm
            exact tail h1 cur1 v' hle1 hwf1 hh

theorem mergeHStep_pres (rec_ : Heap → HVal → HVal → Option (Heap × HVal))
    (dc : Heap → HVal → Option (Heap × HVal))
    (Hrec : ∀ h a b h' r, HeapWF h → rec_ h a b = some (h', r) → heapLe h h' ∧ HeapWF h')
    (Hdc : ∀ h v h' v', HeapWF h → dc h v = some (h', v') → heapLe h h' ∧ HeapWF h') :
    ∀ h a b h' r, HeapWF h → dict_mergeHStep rec_ dc h a b = some (h', r) →
      heapLe h h' ∧ HeapWF h' := by
  intro h a b h' r hwf hh
  cases b with
  | hint i =>
    simp only [dict_mergeHStep] at hh
    injection hh with h1
    injection h1 with heq1 heq2
    subst heq1
    exact ⟨heapLe_refl h, hwf⟩
  | hstr sv =>
    simp only [dict_mergeHStep] at hh
    injection hh with h1
    injection h1 with heq1 heq2
    subst heq1
    exact ⟨heapLe_refl h, hwf⟩
  | href rb =>
    simp only [dict_mergeHStep] at hh
    cases hbg : memGet h.mem rb with
    | none =>
      simp only [hbg] at hh
      injection hh with h1
      injection h1 with heq1 heq2
      subst heq1
      exact ⟨heapLe_refl h, hwf⟩
    | some bd =>
      simp only [hbg] at hh
      cases a with
      | hint i => exact Option.noConfusion hh
      | hstr sv => exact Option.noConfusion hh
      | href ra =>
        cases hag : memGet h.mem ra with
        | none =>
          simp only [hag] at hh
          exact Option.noConfusion hh
        | some ad =>
          simp only [hag] at hh
          cases hde : deepcopyStep.deepcopyEntries dc h ad with
          | none =>
            simp only [hde] at hh
            exact Option.noConfusion hh
          | some pr =>
            obtain ⟨h1, ad'⟩ := pr
            simp only [hde] at hh
            cases hmi : dict_mergeItemsH rec_ dc (halloc h1 ad').1 (halloc h1 ad').2 bd with
            | none =>
              simp only [hmi] at hh
              exact Option.noConfusion hh
            | some h3 =>
              simp only [hmi] at hh
              injection hh with h1eq
              injection h1eq with heq1 heq2
              subst heq1
              obtain ⟨hle1, hwf1⟩ := dcEntries_pres dc Hdc ad h h1 ad' hwf hde
              obtain ⟨hle2, hwf2, hal⟩ := halloc_pres h1 ad' hwf1
              have hrlt : (halloc h1 ad').2 < (halloc h1 ad').1.nxt := by
                rw [hal]
                exact Nat.lt_succ_self _
              obtain ⟨hn3, hwf3, hpres3⟩ :=
                mergeItems_pres rec_ dc Hrec Hdc bd (halloc h1 ad').1
                  (halloc h1 ad').2 h3 hwf2 hrlt hmi
              refine ⟨⟨?_, ?_⟩, hwf3⟩
              · exact le_trans hle1.1 (le_trans hle2.1 hn3)
              · intro x hx
                have hx1 : x < h1.nxt := lt_of_lt_of_le hx hle1.1
                have hx2 : x < (halloc h1 ad').1.nxt := lt_of_lt_of_le hx1 hle2.1
                have hxne : x ≠ (halloc h1 ad').2 := by
                  rw [hal]
                  exact Nat.ne_of_lt hx1
                rw [hpres3 x hx2 hxne, hle2.2 x hx1, hle1.2 x hx]

theorem dict_mergeH_pres : ∀ (f : Nat) (h : Heap) (a b : HVal) (h' : Heap) (r : HVal),
    HeapWF h → dict_mergeH f h a b = some (h', r) → heapLe h h' ∧ HeapWF h' := by
  intro f
  induction f with
  | zero => intro h a b h' r _ hh; exact Option.noConfusion hh
  | succ f ih => exact mergeHStep_pres (dict_mergeH f) (deepcopyH f) ih (deepcopyH_pres f)

/-- C6 confirmed: on a well-formed heap, dict_merge mutates neither input:
every heap object present before the merge (in particular the base and
overlay dicts and everything they reach) holds exactly the same entries
afterwards - the merge only allocates fresh objects and writes into
those. -/
theorem c6_no_mutation :
    ∀ (f : Nat) (h : Heap) (a b : HVal) (h' : Heap) (r : HVal),
      HeapWF h → dict_mergeH f h a b = some (h', r) →
      ∀ (ad : Nat) (d : HDict), memGet h.mem ad = some d → memGet h'.mem ad = some d := by
  intro f h a b h' r hwf hh ad d hd
  obtain ⟨hle, _⟩ := dict_mergeH_pres f h a b h' r hwf hh
  have hlt : ad < h.nxt := hwf (ad, d) (memGet_some_mem h.mem ad d hd)
  rw [hle.2 ad hlt, hd]

/-- Witness for c6_no_mutation: merging {"a": {"x": 1}} (object 0) with
{"a": {"y": 2}} (object 2) allocates the result at 5 and leaves all four
pre-existing objects untouched. -/
theorem c6_no_mutation_witness :
    HeapWF c6heap ∧
    dict_mergeH 5 c6heap (HVal.href 0) (HVal.href 2) = some (c6heapResult, HVal.href 5) ∧
    memGet c6heapResult.mem 0 = some [("a", HVal.href 1)] ∧
    memGet c6heapResult.mem 1 = some [("x", HVal.hint 1)] ∧
    memGet c6heapResult.mem 2 = some [("a", HVal.href 3)] ∧
    memGet c6heapResult.mem 3 = some [("y", HVal.hint 2)] := by
  refine ⟨by decide, rfl, ?_, ?_, ?_, ?_⟩
  · exact c6_no_mutation 5 c6heap (HVal.href 0) (HVal.href 2) c6heapResult (HVal.href 5)
      (by decide) rfl 0 [("a", HVal.href 1)] rfl
  · exact c6_no_mutation 5 c6heap (HVal.href 0) (HVal.href 2) c6heapResult (HVal.href 5)
      (by decide) rfl 1 [("x", HVal.hint 1)] rfl
  · exact c6_no_mutation 5 c6heap (HVal.href 0) (HVal.href 2) c6heapResult (HVal.href 5)
      (by decide) rfl 2 [("a", HVal.href 3)] rfl
  · exact c6_no_mutation 5 c6heap (HVal.href 0) (HVal.href 2) c6heapResult (HVal.href 5)
      (by decide) rfl 3 [("y", HVal.hint 2)] rfl
